import Mathlib

/-!
# Receive decoding engine of the Spread wrapper module (`spreadmodule.c`)

A shallow embedding of the session layer of `spreadmodule.c`: the message
constructors `new_membership_msg` and `new_regular_msg`, the error mapper
`spread_error`, the eight mailbox methods and the teardown of the mailbox
object, followed by the properties proved about them.

Conventions.
* C `int`/`int32` values are `Int`; arithmetic that can leave the 32-bit range
  goes through `wrap32` (two-complement wrap-around).
* A `char *` is a `List Nat` of bytes starting at the pointer; a byte the list
  does not define reads as `0`.  `new_membership_msg` also returns the list of
  buffer indices it read.
* The three buffers handed to `SP_receive` keep their full length: the bytes
  the call stored, then the bytes `Host.stale` of the part it did not store
  into (`fill`).  A store longer than the block behind the pointer is kept only
  as far as the block reaches; what C does with the rest is not modelled.
* Everything that comes from the Spread toolkit header `sp.h` (constants,
  classification macros, layout accessors) is a field of `SpH`; the toolkit
  entry points `SP_*` are fields of `SpLib`, and every invocation is logged in
  `World.calls`.
* Allocation can fail where the module asks for a buffer whose size depends on
  the message: the two retry buffers of the receive loop and the group array of
  `multigroup_multicast` (`Host`).  Other object allocations succeed, `assert`
  is compiled out, and argument parsing has already taken place.
-/

namespace Spread

/-! ## Machine integers -/

/-- Two-complement wrap-around of a mathematical integer into the `int` range. -/
def wrap32 (x : Int) : Int := (x + 2 ^ 31) % 2 ^ 32 - 2 ^ 31

/-- Bit pattern of an `int` as an unsigned 32-bit number. -/
def toU32 (x : Int) : Nat := (x % 2 ^ 32).toNat

/-- C `a & b` on `int` operands. -/
def c_and (a b : Int) : Int := wrap32 ((toU32 a &&& toU32 b : Nat) : Int)

/-- C `a | b` on `int` operands. -/
def c_or (a b : Int) : Int := wrap32 ((toU32 a ||| toU32 b : Nat) : Int)

/-- Predicate: the value is representable as a C `int`. -/
def isInt32 (x : Int) : Prop := -(2 ^ 31) ≤ x ∧ x < 2 ^ 31

instance (x : Int) : Decidable (isInt32 x) := by unfold isInt32; infer_instance

/-! ## The toolkit header and the host -/

/-- The names `spreadmodule.c` takes from the toolkit header `sp.h`, which is
not part of the repository: constants, the two classification macros and the
three layout accessors of a membership message. -/
structure SpH where
  MAX_GROUP_NAME : Nat
  UNRELIABLE_MESS : Int
  RELIABLE_MESS : Int
  FIFO_MESS : Int
  CAUSAL_MESS : Int
  AGREED_MESS : Int
  SAFE_MESS : Int
  SELF_DISCARD : Int
  CAUSED_BY_JOIN : Int
  CAUSED_BY_LEAVE : Int
  CAUSED_BY_DISCONNECT : Int
  CAUSED_BY_NETWORK : Int
  Is_regular_mess : Int → Bool
  Is_membership_mess : Int → Bool
  ILLEGAL_SPREAD : Int
  COULD_NOT_CONNECT : Int
  REJECT_QUOTA : Int
  REJECT_NO_NAME : Int
  REJECT_ILLEGAL_NAME : Int
  REJECT_NOT_UNIQUE : Int
  REJECT_VERSION : Int
  CONNECTION_CLOSED : Int
  REJECT_AUTH : Int
  ILLEGAL_SESSION : Int
  ILLEGAL_SERVICE : Int
  ILLEGAL_MESSAGE : Int
  ILLEGAL_GROUP : Int
  BUFFER_TOO_SHORT : Int
  GROUPS_TOO_SHORT : Int
  MESSAGE_TOO_LONG : Int
  SP_get_gid_offset_memb_mess : Nat
  SP_get_num_vs_offset_memb_mess : Nat
  SP_get_vs_set_offset_memb_mess : Nat

/-- The sixteen status codes `spread_error` switches on, in source order. -/
def SpH.codes (h : SpH) : List Int :=
  [h.ILLEGAL_SPREAD, h.COULD_NOT_CONNECT, h.REJECT_QUOTA, h.REJECT_NO_NAME,
   h.REJECT_ILLEGAL_NAME, h.REJECT_NOT_UNIQUE, h.REJECT_VERSION,
   h.CONNECTION_CLOSED, h.REJECT_AUTH, h.ILLEGAL_SESSION, h.ILLEGAL_SERVICE,
   h.ILLEGAL_MESSAGE, h.ILLEGAL_GROUP, h.BUFFER_TOO_SHORT, h.GROUPS_TOO_SHORT,
   h.MESSAGE_TOO_LONG]

/-- The values of Spread 3.17 (`sp.h`, `sp_func.h`): the instance used wherever
a concrete header is needed. -/
def sp_h : SpH where
  MAX_GROUP_NAME := 32
  UNRELIABLE_MESS := 0x01
  RELIABLE_MESS := 0x02
  FIFO_MESS := 0x04
  CAUSAL_MESS := 0x08
  AGREED_MESS := 0x10
  SAFE_MESS := 0x20
  SELF_DISCARD := 0x40
  CAUSED_BY_JOIN := 0x0100
  CAUSED_BY_LEAVE := 0x0200
  CAUSED_BY_DISCONNECT := 0x0400
  CAUSED_BY_NETWORK := 0x0800
  Is_regular_mess := fun t => decide (c_and t 0x3f ≠ 0) && decide (c_and t 0x00400000 = 0)
  Is_membership_mess := fun t => decide (c_and t 0x3f00 ≠ 0) && decide (c_and t 0x00400000 = 0)
  ILLEGAL_SPREAD := -1
  COULD_NOT_CONNECT := -2
  REJECT_QUOTA := -3
  REJECT_NO_NAME := -4
  REJECT_ILLEGAL_NAME := -5
  REJECT_NOT_UNIQUE := -6
  REJECT_VERSION := -7
  CONNECTION_CLOSED := -8
  REJECT_AUTH := -9
  ILLEGAL_SESSION := -11
  ILLEGAL_SERVICE := -12
  ILLEGAL_MESSAGE := -13
  ILLEGAL_GROUP := -14
  BUFFER_TOO_SHORT := -15
  GROUPS_TOO_SHORT := -16
  MESSAGE_TOO_LONG := -17
  SP_get_gid_offset_memb_mess := 0
  SP_get_num_vs_offset_memb_mess := 12
  SP_get_vs_set_offset_memb_mess := 16

/-- The machine the module runs on: byte order, width of `size_t`, which
allocation requests are granted, and the byte `stale i` found at index `i` of a
buffer that nothing has been stored into (uninitialised stack or heap memory). -/
structure Host where
  big_endian : Bool
  size_t_bits : Nat
  malloc_ok : Nat → Bool
  pystring_ok : Nat → Bool
  stale : Nat → Nat

/-- A little-endian 64-bit host whose allocator grants every request and whose
uninitialised memory holds non-zero bytes. -/
def host64 : Host where
  big_endian := false
  size_t_bits := 64
  malloc_ok := fun _ => true
  pystring_ok := fun _ => true
  stale := fun i => i % 255 + 1

/-- Conversion of an `int` argument to `size_t`. -/
def to_size_t (host : Host) (n : Int) : Nat := (n % 2 ^ host.size_t_bits).toNat

/-! ## Bytes and C strings -/

/-- The byte `p[i]`. -/
def peek (p : List Nat) (i : Nat) : Nat := p.getD i 0

/-- C `strlen(p + off)`. -/
def strlen (p : List Nat) (off : Nat) : Nat := ((p.drop off).takeWhile (fun b => b != 0)).length

/-- Embedding of `PyString_FromString(p + off)`: the bytes before the first NUL. -/
def PyString_FromString (p : List Nat) (off : Nat) : List Nat :=
  (p.drop off).takeWhile (fun b => b != 0)

/-- Indices of `p` that `PyString_FromString(p + off)` reads: the string and
its terminator. -/
def PyString_FromString_reads (p : List Nat) (off : Nat) : List Nat :=
  List.range' off (strlen p off + 1)

/-- Embedding of `PyString_FromStringAndSize(p, size)` for `size ≥ 0`: exactly `size` bytes. -/
def PyString_FromStringAndSize (p : List Nat) (size : Int) : List Nat :=
  (List.range size.toNat).map (peek p)

/-- An `int32` assembled from four bytes in host byte order (what `memcpy` into
an `int32` object yields). -/
def load_int32 (host : Host) (p : List Nat) (off : Nat) : Int :=
  let b0 := peek p off % 256
  let b1 := peek p (off + 1) % 256
  let b2 := peek p (off + 2) % 256
  let b3 := peek p (off + 3) % 256
  if host.big_endian then
    wrap32 ((b0 * 2 ^ 24 + b1 * 2 ^ 16 + b2 * 2 ^ 8 + b3 : Nat) : Int)
  else
    wrap32 ((b0 + b1 * 2 ^ 8 + b2 * 2 ^ 16 + b3 * 2 ^ 24 : Nat) : Int)

/-! ## Python-level values -/

/-- The exceptions the module raises. -/
inductive PyErr where
  /-- The error of `err_disconnected`: SpreadError, "%s() called on closed mbox". -/
  | closed_mbox (methodname : String)
  /-- The error of `spread_error`: SpreadError carrying `(err, message)`. -/
  | SpreadError (err : Int) (message : String)
  /-- SpreadError "unexpected service type: 0x%x". -/
  | unexpected_service_type (svc_type : Int)
  | ValueError (message : String)
  | TypeError (message : String)
  /-- AssertionError of `new_membership_msg` (corrupted message). -/
  | corrupted (num_extra_members : Int) (remaining : Int)
  /-- AssertionError of the receive loop. -/
  | assert_error (assertmsg : String) (size svc_type num_groups msg_type endian : Int)
  | MemoryError
  /-- SystemError: bad argument to an internal function (negative length). -/
  | SystemError
  deriving DecidableEq, Repr

/-- The `group_id` of `sp.h` as `group_id_repr` reads it: `id[0..2]`. -/
structure GroupId where
  id0 : Int
  id1 : Int
  id2 : Int
  deriving DecidableEq, Repr

structure RegularMsg where
  sender : List Nat
  groups : List (List Nat)
  msg_type : Int
  endian : Int
  message : List Nat
  deriving DecidableEq, Repr

structure MembershipMsg where
  reason : Int
  group : List Nat
  group_id : Option GroupId
  members : List (List Nat)
  extra : List (List Nat)
  deriving DecidableEq, Repr

/-- Embedding of `new_group_id`: `memcpy` of `sizeof(group_id)` bytes at `buffer + off`. -/
def new_group_id (host : Host) (buffer : List Nat) (off : Nat) : GroupId :=
  { id0 := load_int32 host buffer off
    id1 := load_int32 host buffer (off + 4)
    id2 := load_int32 host buffer (off + 8) }

/-- Embedding of `PyTuple_New(n)` followed by the loop that fills slot `i` with
`PyString_FromString(names[i])`, `names` being `char (*)[MAX_GROUP_NAME]`. -/
def name_tuple (h : SpH) (names : List Nat) (n : Int) : Except PyErr (List (List Nat)) :=
  if n < 0 then .error .SystemError
  else .ok ((List.range n.toNat).map (fun i => PyString_FromString names (i * h.MAX_GROUP_NAME)))

/-- Embedding of `CAUSED_BY_MASK`. -/
def CAUSED_BY_MASK (h : SpH) : Int :=
  c_or (c_or (c_or h.CAUSED_BY_JOIN h.CAUSED_BY_LEAVE) h.CAUSED_BY_DISCONNECT) h.CAUSED_BY_NETWORK

/-- The loop of `new_membership_msg` over the extra members: `k` iterations left,
`extra_members` pointing at `buffer + p`.  Returns the names and the indices of
`buffer` read. -/
def extra_loop (h : SpH) (buffer : List Nat) : Nat → Nat → List (List Nat) × List Nat
  | 0, _ => ([], [])
  | k + 1, p =>
    let s := PyString_FromString buffer p
    let r := PyString_FromString_reads buffer p
    let rest := extra_loop h buffer k (p + h.MAX_GROUP_NAME)
    (s :: rest.1, r ++ rest.2)

/-- Embedding of `new_membership_msg(type, group, num_members, members, buffer, size)`.
The second component lists the indices of `buffer` that were read. -/
def new_membership_msg (h : SpH) (host : Host) (type : Int) (group : List Nat)
    (num_members : Int) (members : List Nat) (buffer : List Nat) (size : Int) :
    Except PyErr MembershipMsg × List Nat :=
  let reason := c_and type (CAUSED_BY_MASK h)
  match name_tuple h members num_members with
  | .error e => (.error e, [])
  | .ok mems =>
    let vs := h.SP_get_vs_set_offset_memb_mess
    if (vs : Int) ≤ size then
      let gid := new_group_id host buffer h.SP_get_gid_offset_memb_mess
      let num_extra_members := load_int32 host buffer h.SP_get_num_vs_offset_memb_mess
      let hdr := List.range' h.SP_get_gid_offset_memb_mess 12 ++
                 List.range' h.SP_get_num_vs_offset_memb_mess 4
      if wrap32 (size - vs) < wrap32 (num_extra_members * h.MAX_GROUP_NAME) then
        (.error (.corrupted num_extra_members (wrap32 (size - vs))), hdr)
      else if num_extra_members < 0 then
        (.error .SystemError, hdr)
      else
        let ex := extra_loop h buffer num_extra_members.toNat vs
        (.ok { reason := reason, group := group, group_id := some gid,
               members := mems, extra := ex.1 }, hdr ++ ex.2)
    else
      (.ok { reason := reason, group := group, group_id := none,
             members := mems, extra := [] }, [])

/-- Embedding of `new_regular_msg(sender, num_groups, groups, msg_type, endian, message)`. -/
def new_regular_msg (h : SpH) (sender : List Nat) (num_groups : Int) (groups : List Nat)
    (msg_type endian : Int) (message : List Nat) : Except PyErr RegularMsg :=
  match name_tuple h groups num_groups with
  | .error e => .error e
  | .ok gs => .ok { sender := sender, groups := gs, msg_type := msg_type,
                    endian := endian, message := message }

/-! ## The mailbox object and the toolkit entry points -/

def DEFAULT_GROUPS_SIZE : Nat := 10

def DEFAULT_BUFFER_SIZE : Nat := 10000

/-- The fields of `MailboxObject`; `disconnected` only ever holds 0 or 1. -/
structure MailboxObject where
  mbox : Int
  private_group : List Nat
  disconnected : Bool
  deriving DecidableEq, Repr

/-- What a Python-level method returns on success. -/
inductive PyObject where
  | None
  | PyInt (n : Int)
  | Regular (m : RegularMsg)
  | Membership (m : MembershipMsg)
  deriving DecidableEq, Repr

/-- One invocation of a toolkit entry point, with the scalar arguments passed.
For `SP_receive` the byte capacities of the group buffer and of the data
buffer handed over are recorded next to `max_groups` and `bufsize`. -/
inductive SpCall where
  | SP_disconnect (mbox : Int)
  | SP_join (mbox : Int) (group : List Nat)
  | SP_leave (mbox : Int) (group : List Nat)
  | SP_poll (mbox : Int)
  | SP_multicast (mbox svc_type : Int) (group : List Nat) (msg_type : Int) (msg : List Nat)
  | SP_multigroup_multicast (mbox svc_type : Int) (groups : List Nat) (num_groups : Int)
      (msg_type : Int) (msg : List Nat)
  | SP_receive (mbox svc_type max_groups : Int) (groups_bytes : Nat) (bufsize : Int)
      (buffer_bytes : Nat)
  deriving DecidableEq, Repr

/-- What one `SP_receive` call leaves behind: its return value `size`, the
output scalars, and the bytes it stored through the three buffer pointers. -/
structure RecvOut where
  size : Int
  svc_type : Int
  sender : List Nat
  num_groups : Int
  groups : List Nat
  msg_type : Int
  endian : Int
  buffer : List Nat
  deriving DecidableEq, Repr

/-- The toolkit entry points as functions of a toolkit state `σ`. -/
structure SpLib (σ : Type) where
  SP_disconnect : σ → Int → Int × σ
  SP_join : σ → Int → List Nat → Int × σ
  SP_leave : σ → Int → List Nat → Int × σ
  SP_poll : σ → Int → Int × σ
  SP_multicast : σ → Int → Int → List Nat → Int → List Nat → Int × σ
  SP_multigroup_multicast :
    σ → Int → Int → Int → List Nat → Int → List Nat → Int × σ
  SP_receive : σ → Int → Int → Int → Int → RecvOut × σ

/-- The toolkit state together with the log of entry points invoked so far. -/
structure World (σ : Type) where
  state : σ
  calls : List SpCall

/-- Record a call and install the new toolkit state. -/
def World.step {σ : Type} (w : World σ) (c : SpCall) (s : σ) : World σ :=
  { state := s, calls := w.calls ++ [c] }

/-- Embedding of `err_disconnected(methodname)`. -/
def err_disconnected (methodname : String) : PyErr := .closed_mbox methodname

/-- The message `spread_error` selects in its `switch`, and whether the case
sets `mbox->disconnected`. -/
def spread_error_case (h : SpH) (err : Int) : String × Bool :=
  if err = h.ILLEGAL_SPREAD then ("Illegal spread was provided", false)
  else if err = h.COULD_NOT_CONNECT then ("Could not connect. Is Spread running?", false)
  else if err = h.REJECT_QUOTA then ("Connection rejected, too many users", false)
  else if err = h.REJECT_NO_NAME then ("Connection rejected, no name was supplied", false)
  else if err = h.REJECT_ILLEGAL_NAME then ("Connection rejected, illegal name", false)
  else if err = h.REJECT_NOT_UNIQUE then ("Connection rejected, name not unique", false)
  else if err = h.REJECT_VERSION then
    ("Connection rejected, library does not fit daemon", false)
  else if err = h.CONNECTION_CLOSED then ("Connection closed by spread", true)
  else if err = h.REJECT_AUTH then ("Connection rejected, authentication failed", false)
  else if err = h.ILLEGAL_SESSION then ("Illegal session was supplied", true)
  else if err = h.ILLEGAL_SERVICE then ("Illegal service request", false)
  else if err = h.ILLEGAL_MESSAGE then ("Illegal message", false)
  else if err = h.ILLEGAL_GROUP then ("Illegal group", false)
  else if err = h.BUFFER_TOO_SHORT then ("The supplied buffer was too short", false)
  else if err = h.GROUPS_TOO_SHORT then ("The supplied groups list was too short", false)
  else if err = h.MESSAGE_TOO_LONG then
    ("The message body + group names was too large to fit in a message", false)
  else ("unrecognized error", false)

/-- Embedding of `spread_error(err, mbox)`: the exception set, and the mailbox afterwards
(`none` for a NULL `mbox`). -/
def spread_error (h : SpH) (err : Int) (mbox : Option MailboxObject) :
    PyErr × Option MailboxObject :=
  let c := spread_error_case h err
  (.SpreadError err c.1,
   match mbox with
   | none => none
   | some m => if c.2 then some { m with disconnected := true } else some m)

/-- Embedding of `spread_error(err, self)` at a call site that holds a mailbox. -/
def spread_error_self (h : SpH) (err : Int) (self : MailboxObject) : PyErr × MailboxObject :=
  let r := spread_error h err (some self)
  (r.1, r.2.getD self)

/-- Embedding of `mailbox_dealloc`: the entry points invoked while the object is torn down. -/
def mailbox_dealloc {σ : Type} (lib : SpLib σ) (self : MailboxObject) (w : World σ) : World σ :=
  if self.disconnected = false then
    w.step (.SP_disconnect self.mbox) (lib.SP_disconnect w.state self.mbox).2
  else w

/-- Embedding of `mailbox_disconnect`. -/
def mailbox_disconnect {σ : Type} (h : SpH) (lib : SpLib σ) (self : MailboxObject)
    (w : World σ) : Except PyErr PyObject × MailboxObject × World σ :=
  if !self.disconnected then
    let self1 := { self with disconnected := true }
    let r := lib.SP_disconnect w.state self.mbox
    let w1 := w.step (.SP_disconnect self.mbox) r.2
    if r.1 ≠ 0 then
      let e := spread_error_self h r.1 self1
      (.error e.1, e.2, w1)
    else (.ok .None, self1, w1)
  else (.ok .None, self, w)

/-- Embedding of `mailbox_fileno`. -/
def mailbox_fileno {σ : Type} (self : MailboxObject) (w : World σ) :
    Except PyErr PyObject × MailboxObject × World σ :=
  if self.disconnected then (.error (err_disconnected "fileno"), self, w)
  else (.ok (.PyInt self.mbox), self, w)

/-- Embedding of `mailbox_join`. -/
def mailbox_join {σ : Type} (h : SpH) (lib : SpLib σ) (self : MailboxObject)
    (group : List Nat) (w : World σ) : Except PyErr PyObject × MailboxObject × World σ :=
  if self.disconnected then (.error (err_disconnected "join"), self, w)
  else
    let r := lib.SP_join w.state self.mbox group
    let w1 := w.step (.SP_join self.mbox group) r.2
    if r.1 < 0 then
      let e := spread_error_self h r.1 self
      (.error e.1, e.2, w1)
    else (.ok .None, self, w1)

/-- Embedding of `mailbox_leave`. -/
def mailbox_leave {σ : Type} (h : SpH) (lib : SpLib σ) (self : MailboxObject)
    (group : List Nat) (w : World σ) : Except PyErr PyObject × MailboxObject × World σ :=
  if self.disconnected then (.error (err_disconnected "leave"), self, w)
  else
    let r := lib.SP_leave w.state self.mbox group
    let w1 := w.step (.SP_leave self.mbox group) r.2
    if r.1 < 0 then
      let e := spread_error_self h r.1 self
      (.error e.1, e.2, w1)
    else (.ok .None, self, w1)

/-- Embedding of `valid_svc_type`. -/
def valid_svc_type (h : SpH) : Int :=
  c_or (c_or (c_or (c_or (c_or (c_or h.UNRELIABLE_MESS h.RELIABLE_MESS) h.FIFO_MESS)
    h.CAUSAL_MESS) h.AGREED_MESS) h.SAFE_MESS) h.SELF_DISCARD

/-- The cast `(int16)x`. -/
def to_int16 (x : Int) : Int := (x + 2 ^ 15) % 2 ^ 16 - 2 ^ 15

/-- Embedding of `mailbox_multicast(svc_type, group, msg, msg_type)`. -/
def mailbox_multicast {σ : Type} (h : SpH) (lib : SpLib σ) (self : MailboxObject)
    (svc_type : Int) (group : List Nat) (msg : List Nat) (msg_type : Int) (w : World σ) :
    Except PyErr PyObject × MailboxObject × World σ :=
  if self.disconnected then (.error (err_disconnected "multicast"), self, w)
  else if c_and svc_type (valid_svc_type h) ≠ svc_type then
    (.error (.ValueError "invalid service type"), self, w)
  else
    let r := lib.SP_multicast w.state self.mbox svc_type group (to_int16 msg_type) msg
    let w1 := w.step (.SP_multicast self.mbox svc_type group (to_int16 msg_type) msg) r.2
    if r.1 < 0 then
      let e := spread_error_self h r.1 self
      (.error e.1, e.2, w1)
    else (.ok (.PyInt r.1), self, w1)

/-- Embedding of `mailbox_poll`. -/
def mailbox_poll {σ : Type} (h : SpH) (lib : SpLib σ) (self : MailboxObject) (w : World σ) :
    Except PyErr PyObject × MailboxObject × World σ :=
  if self.disconnected then (.error (err_disconnected "poll"), self, w)
  else
    let r := lib.SP_poll w.state self.mbox
    let w1 := w.step (.SP_poll self.mbox) r.2
    if r.1 < 0 then
      let e := spread_error_self h r.1 self
      (.error e.1, e.2, w1)
    else (.ok (.PyInt r.1), self, w1)

/-- Embedding of `strncpy(groups[index], name, MAX_GROUP_NAME)`: the slot afterwards. -/
def strncpy_slot (h : SpH) (name : List Nat) : List Nat :=
  let s := (name.takeWhile (fun b => b != 0)).take h.MAX_GROUP_NAME
  s ++ List.replicate (h.MAX_GROUP_NAME - s.length) 0

/-- Embedding of `mailbox_multigroup_multicast(svc_type, group_tuple, msg, msg_type)`; an
entry of the tuple that is not a string is `none`. -/
def mailbox_multigroup_multicast {σ : Type} (h : SpH) (host : Host) (lib : SpLib σ)
    (self : MailboxObject) (svc_type : Int) (group_tuple : List (Option (List Nat)))
    (msg : List Nat) (msg_type : Int) (w : World σ) :
    Except PyErr PyObject × MailboxObject × World σ :=
  let group_len : Int := group_tuple.length
  if group_len = 0 then
    (.error (.ValueError "there must be at least one group in the tuple"), self, w)
  else if !host.malloc_ok (to_size_t host (wrap32 (h.MAX_GROUP_NAME * group_len))) then
    (.error .MemoryError, self, w)
  else if group_tuple.any (fun g => g.isNone) then
    (.error (.TypeError "groups must be strings only"), self, w)
  else if self.disconnected then
    (.error (err_disconnected "multigroup_multicast"), self, w)
  else if c_and svc_type (valid_svc_type h) ≠ svc_type then
    (.error (.ValueError "invalid service type"), self, w)
  else
    let groups := (group_tuple.map (fun g => strncpy_slot h (g.getD []))).flatten
    let r := lib.SP_multigroup_multicast w.state self.mbox svc_type group_len groups
      (to_int16 msg_type) msg
    let w1 := w.step (.SP_multigroup_multicast self.mbox svc_type groups group_len
      (to_int16 msg_type) msg) r.2
    if r.1 < 0 then
      let e := spread_error_self h r.1 self
      (.error e.1, e.2, w1)
    else (.ok (.PyInt r.1), self, w1)

/-! ## The receive loop -/

/-- The buffer variables of `mailbox_receive`.  `groups_heap = none` means
`groups == groupbuffer`, `some n` a `malloc` block of `n` bytes; `data = none`
means `data == NULL` (so `pbuffer == databuffer`), `some n` a string object of
`n` bytes whose storage `pbuffer` points at. -/
structure RecvBufs where
  max_groups : Int
  groups_heap : Option Nat
  bufsize : Int
  data : Option Nat
  deriving DecidableEq, Repr

/-- The variables on entry to the loop. -/
def RecvBufs.init : RecvBufs :=
  { max_groups := DEFAULT_GROUPS_SIZE, groups_heap := none,
    bufsize := DEFAULT_BUFFER_SIZE, data := none }

/-- Bytes available behind `groups`. -/
def RecvBufs.groups_bytes (h : SpH) (b : RecvBufs) : Nat :=
  match b.groups_heap with
  | none => DEFAULT_GROUPS_SIZE * h.MAX_GROUP_NAME
  | some n => n

/-- Bytes available behind `pbuffer`. -/
def RecvBufs.buffer_bytes (b : RecvBufs) : Nat :=
  match b.data with
  | none => DEFAULT_BUFFER_SIZE
  | some n => n

/-- How the `for (;;)` loop is left. -/
inductive LoopExit where
  /-- The `break`: a message was received into the current buffers. -/
  | done (out : RecvOut) (bufs : RecvBufs)
  /-- A `goto error` with the exception set. -/
  | failed (e : PyErr)
  /-- The iteration budget of the model ran out with the loop still running. -/
  | running
  deriving DecidableEq, Repr

/-- Embedding of `PyString_FromStringAndSize(NULL, n)`: the size of the new string object. -/
def PyString_alloc (host : Host) (n : Int) : Except PyErr Nat :=
  if n < 0 then .error .SystemError
  else if host.pystring_ok n.toNat then .ok n.toNat
  else .error .MemoryError

/-- The `cap` bytes of a buffer after the toolkit has stored `stored` at its
start: the stored bytes, cut to the bytes behind the pointer, followed by the
stale bytes of the part nothing was stored into. -/
def fill (host : Host) (cap : Nat) (stored : List Nat) : List Nat :=
  stored.take cap ++ (List.range' stored.length (cap - stored.length)).map host.stale

/-- The outcome of `SP_receive` as `mailbox_receive` sees it: the scalars as
returned, and `senderbuffer`, `groups` and `pbuffer` in their full length, the
bytes the call stored followed by the stale rest of each buffer. -/
def received (h : SpH) (host : Host) (bufs : RecvBufs) (r : RecvOut) : RecvOut :=
  { r with sender := fill host h.MAX_GROUP_NAME r.sender
           groups := fill host (bufs.groups_bytes h) r.groups
           buffer := fill host bufs.buffer_bytes r.buffer }

/-- The body of the `for (;;)` loop after `SP_receive` has returned `out`:
`.ok bufs1` is a `continue` with the buffer variables `bufs1`, `.error` leaves
the loop (by `break` or by `goto error`) with the mailbox as given. -/
def receive_iteration (h : SpH) (host : Host) (out : RecvOut) (bufs : RecvBufs)
    (self : MailboxObject) : Except (LoopExit × MailboxObject) RecvBufs :=
  if out.size ≥ 0 then
    if out.num_groups < 0 then
      .error (.failed (.assert_error "size >= 0 and num_groups < 0"
        out.size out.svc_type out.num_groups out.msg_type out.endian), self)
    else if out.endian < 0 then
      .error (.failed (.assert_error "size >= 0 and endian < 0"
        out.size out.svc_type out.num_groups out.msg_type out.endian), self)
    else .error (.done out bufs, self)
  else if out.size = h.BUFFER_TOO_SHORT then
    if out.endian ≥ 0 then
      .error (.failed (.assert_error "BUFFER_TOO_SHORT and endian >= 0"
        out.size out.svc_type out.num_groups out.msg_type out.endian), self)
    else
      let bufsize := wrap32 (-out.endian)
      match PyString_alloc host bufsize with
      | .error e => .error (.failed e, self)
      | .ok n => .ok { bufs with bufsize := bufsize, data := some n }
  else if out.size = h.GROUPS_TOO_SHORT then
    if out.num_groups ≥ 0 then
      .error (.failed (.assert_error "GROUPS_TOO_SHORT and num_groups >= 0"
        out.size out.svc_type out.num_groups out.msg_type out.endian), self)
    else
      let max_groups := wrap32 (-out.num_groups)
      let n := to_size_t host (wrap32 (h.MAX_GROUP_NAME * max_groups))
      if host.malloc_ok n then .ok { bufs with max_groups := max_groups, groups_heap := some n }
      else .error (.failed .MemoryError, self)
  else
    let e := spread_error_self h out.size self
    .error (.failed e.1, e.2)

/-- The `for (;;)` loop of `mailbox_receive`, at most `fuel` iterations:
`svc_type` is reset, `SP_receive` is called with the current buffer variables,
and `receive_iteration` decides how to go on. -/
def receive_loop {σ : Type} (h : SpH) (host : Host) (lib : SpLib σ) :
    Nat → RecvBufs → MailboxObject → World σ → LoopExit × MailboxObject × World σ
  | 0, _, self, w => (.running, self, w)
  | fuel + 1, bufs, self, w =>
    let svc_type : Int := 0
    let r := lib.SP_receive w.state self.mbox svc_type bufs.max_groups bufs.bufsize
    let w1 := w.step (.SP_receive self.mbox svc_type bufs.max_groups (bufs.groups_bytes h)
      bufs.bufsize bufs.buffer_bytes) r.2
    match receive_iteration h host (received h host bufs r.1) bufs self with
    | .ok bufs1 => receive_loop h host lib fuel bufs1 self w1
    | .error (exit, self1) => (exit, self1, w1)

/-- The part of `mailbox_receive` after the loop: build the message from what
the last `SP_receive` call left in the buffers. -/
def decode_received (h : SpH) (host : Host) (out : RecvOut) (bufs : RecvBufs) :
    Except PyErr PyObject :=
  let sender := PyString_FromString out.sender 0
  if h.Is_regular_mess out.svc_type then
    let data :=
      match bufs.data with
      | none => PyString_FromStringAndSize out.buffer out.size
      | some n =>
        if (n : Int) ≠ out.size then PyString_FromStringAndSize out.buffer out.size
        else PyString_FromStringAndSize out.buffer n
    match new_regular_msg h sender out.num_groups out.groups out.msg_type out.endian data with
    | .error e => .error e
    | .ok m => .ok (.Regular m)
  else if h.Is_membership_mess out.svc_type then
    match (new_membership_msg h host out.svc_type sender out.num_groups out.groups
      out.buffer out.size).1 with
    | .error e => .error e
    | .ok m => .ok (.Membership m)
  else .error (.unexpected_service_type out.svc_type)

/-- Embedding of `mailbox_receive`, the loop bounded by `fuel` iterations; `none` when the
loop is still running after `fuel` iterations. -/
def mailbox_receive {σ : Type} (h : SpH) (host : Host) (lib : SpLib σ) (fuel : Nat)
    (self : MailboxObject) (w : World σ) :
    Option (Except PyErr PyObject) × MailboxObject × World σ :=
  if self.disconnected then (some (.error (err_disconnected "receive")), self, w)
  else
    match receive_loop h host lib fuel RecvBufs.init self w with
    | (.running, self1, w1) => (none, self1, w1)
    | (.failed e, self1, w1) => (some (.error e), self1, w1)
    | (.done out bufs, self1, w1) => (some (decode_received h host out bufs), self1, w1)

/-! ## The contract of the receive primitive -/

/-- The message at the head of the session queue, with the order in which the
primitive reports the two shortages when both buffers are too small. -/
structure Pending where
  svc_type : Int
  sender : List Nat
  groups : List (List Nat)
  msg_type : Int
  endian : Int
  payload : List Nat
  data_first : Bool
  deriving DecidableEq, Repr

/-- A name in its fixed-width slot: the bytes, then NUL up to the slot width. -/
def pad_name (h : SpH) (name : List Nat) : List Nat :=
  name ++ List.replicate (h.MAX_GROUP_NAME - name.length) 0

/-- The group names as the primitive lays them out in the group buffer. -/
def pad_names (h : SpH) : List (List Nat) → List Nat
  | [] => []
  | g :: gs => pad_name h g ++ pad_names h gs

/-- The receive primitive by its contract.  With a data capacity below the
payload size it returns `BUFFER_TOO_SHORT` with `endian = -size` and stores
nothing; with a group capacity below the group count it returns
`GROUPS_TOO_SHORT` with `num_groups = -count` and stores nothing; otherwise it
stores sender, names and payload and returns the payload size.  The message
stays pending. -/
def contract_receive (h : SpH) (p : Pending) (max_groups bufsize : Int) : RecvOut :=
  let S : Int := p.payload.length
  let N : Int := p.groups.length
  let data_short := decide (bufsize < S)
  let groups_short := decide (max_groups < N)
  let short_out (size : Int) : RecvOut :=
    { size := size, svc_type := p.svc_type, sender := [],
      num_groups := if groups_short then -N else N, groups := [],
      msg_type := p.msg_type, endian := if data_short then -S else p.endian, buffer := [] }
  if data_short && (p.data_first || !groups_short) then short_out h.BUFFER_TOO_SHORT
  else if groups_short then short_out h.GROUPS_TOO_SHORT
  else
    { size := S, svc_type := p.svc_type, sender := pad_name h p.sender,
      num_groups := N, groups := pad_names h p.groups,
      msg_type := p.msg_type, endian := p.endian, buffer := p.payload }

/-- The toolkit whose receive primitive follows the contract; the other entry
points report success. -/
def contract_lib (h : SpH) : SpLib Pending where
  SP_disconnect := fun s _ => (0, s)
  SP_join := fun s _ _ => (0, s)
  SP_leave := fun s _ _ => (0, s)
  SP_poll := fun s _ => (0, s)
  SP_multicast := fun s _ _ _ _ msg => ((msg.length : Int), s)
  SP_multigroup_multicast := fun s _ _ _ _ _ msg => ((msg.length : Int), s)
  SP_receive := fun s _ _ max_groups bufsize => (contract_receive h s max_groups bufsize, s)

/-! ## Specification-side notions -/

/-- A membership body of 16 bytes on a little-endian host: a zero group id and
the extra-member count `0x08000000`. -/
def overflow_buffer : List Nat := List.replicate 12 0 ++ [0, 0, 0, 8]

/-- A toolkit whose teardown primitive reports `CONNECTION_CLOSED` (-8). -/
def refusing_lib : SpLib Unit where
  SP_disconnect := fun s _ => (-8, s)
  SP_join := fun s _ _ => (0, s)
  SP_leave := fun s _ _ => (0, s)
  SP_poll := fun s _ => (0, s)
  SP_multicast := fun s _ _ _ _ msg => ((msg.length : Int), s)
  SP_multigroup_multicast := fun s _ _ _ _ _ msg => ((msg.length : Int), s)
  SP_receive := fun s _ _ _ _ =>
    ({ size := -8, svc_type := 0, sender := [], num_groups := 0, groups := [],
       msg_type := 0, endian := 0, buffer := [] }, s)

/-- A mailbox that is still connected. -/
def open_mbox : MailboxObject := { mbox := 3, private_group := [35, 97], disconnected := false }

/-- A mailbox after `disconnect()`. -/
def shut_mbox : MailboxObject := { mbox := 3, private_group := [35, 97], disconnected := true }

/-- A world in which no entry point has been invoked yet. -/
def fresh {σ : Type} (s : σ) : World σ := { state := s, calls := [] }

/-- Number of buffers of `b` that are too small for the pending message. -/
def shortages (p : Pending) (b : RecvBufs) : Nat :=
  (if b.bufsize < (p.payload.length : Int) then 1 else 0) +
  (if b.max_groups < (p.groups.length : Int) then 1 else 0)

/-- What the loop holds after the call that delivers `p` into the buffers `b`. -/
def delivered (h : SpH) (host : Host) (p : Pending) (b : RecvBufs) : RecvOut :=
  { size := p.payload.length, svc_type := p.svc_type,
    sender := fill host h.MAX_GROUP_NAME (pad_name h p.sender),
    num_groups := p.groups.length,
    groups := fill host (b.groups_bytes h) (pad_names h p.groups),
    msg_type := p.msg_type, endian := p.endian,
    buffer := fill host b.buffer_bytes p.payload }

/-- The capacities announced to the primitive are non-negative and backed by
the bytes behind the pointers. -/
def Fits (h : SpH) (b : RecvBufs) : Prop :=
  0 ≤ b.bufsize ∧ b.bufsize ≤ b.buffer_bytes ∧
  0 ≤ b.max_groups ∧ b.max_groups * h.MAX_GROUP_NAME ≤ b.groups_bytes h

/-- Side conditions under which the contract primitive can deliver `p` to
`mailbox_receive`: the two too-short codes are distinct negative numbers, the
success scalars are non-negative, payload size and group-buffer size are
representable as `int`, and the host grants the two buffers of those sizes. -/
structure Deliverable (h : SpH) (host : Host) (p : Pending) : Prop where
  buffer_code : h.BUFFER_TOO_SHORT < 0
  groups_code : h.GROUPS_TOO_SHORT < 0
  codes_ne : h.BUFFER_TOO_SHORT ≠ h.GROUPS_TOO_SHORT
  endian_nonneg : 0 ≤ p.endian
  size_int : (p.payload.length : Int) < 2 ^ 31
  count_int : (p.groups.length : Int) < 2 ^ 31
  groups_int : (h.MAX_GROUP_NAME : Int) * (p.groups.length : Int) < 2 ^ 31
  size_t_wide : 31 ≤ host.size_t_bits
  string_granted : host.pystring_ok p.payload.length = true
  block_granted : host.malloc_ok (h.MAX_GROUP_NAME * p.groups.length) = true

/-- Every group name fits its slot with a terminator and holds no NUL byte. -/
def well_formed_names (h : SpH) (names : List (List Nat)) : Prop :=
  ∀ g ∈ names, g.length < h.MAX_GROUP_NAME ∧ ∀ b ∈ g, b ≠ 0

/-- A regular message with 11 groups and a payload of 10001 bytes: both stack
buffers of `mailbox_receive` are too small for it. -/
def big_message : Pending :=
  { svc_type := 0x02, sender := [35, 97], groups := List.replicate 11 [103],
    msg_type := 0, endian := 0, payload := List.replicate 10001 7, data_first := false }

/-- A membership message (caused by a join) for 11 members whose body stops
short of the extension region. -/
def join_message : Pending :=
  { svc_type := 0x1100, sender := [103], groups := List.replicate 11 [35, 97],
    msg_type := 0, endian := 0, payload := [1, 2, 3], data_first := false }

/-- The messages of the `switch` in `spread_error` in source order, followed by
the message of its `default` case. -/
def spread_error_messages : List String :=
  ["Illegal spread was provided", "Could not connect. Is Spread running?",
   "Connection rejected, too many users", "Connection rejected, no name was supplied",
   "Connection rejected, illegal name", "Connection rejected, name not unique",
   "Connection rejected, library does not fit daemon", "Connection closed by spread",
   "Connection rejected, authentication failed", "Illegal session was supplied",
   "Illegal service request", "Illegal message", "Illegal group",
   "The supplied buffer was too short", "The supplied groups list was too short",
   "The message body + group names was too large to fit in a message",
   "unrecognized error"]

/-- The outcome of a receive whose membership body of 16 bytes declares one
extra member although no byte follows the header. -/
def corrupt_join_out : RecvOut :=
  { size := 16, svc_type := 0x1100, sender := [103, 0], num_groups := 1,
    groups := [35, 97, 0], msg_type := 0, endian := 0,
    buffer := List.replicate 12 0 ++ [1, 0, 0, 0] }

/-- The outcome of a receive that delivers a transitional membership message:
service type `TRANSITION_MESS` and an empty body. -/
def transition_out : RecvOut :=
  { size := 0, svc_type := 0x2000, sender := [103, 0], num_groups := 1,
    groups := [35, 97, 0], msg_type := 0, endian := 0, buffer := [] }

/-- A `GROUPS_TOO_SHORT` outcome that asks for 134217728 group slots. -/
def huge_groups_out : RecvOut :=
  { size := -16, svc_type := 0, sender := [], num_groups := -134217728, groups := [],
    msg_type := 0, endian := 0, buffer := [] }

/-- A toolkit whose receive primitive keeps asking for 134217728 group slots. -/
def huge_groups_lib : SpLib Unit where
  SP_disconnect := fun s _ => (0, s)
  SP_join := fun s _ _ => (0, s)
  SP_leave := fun s _ _ => (0, s)
  SP_poll := fun s _ => (0, s)
  SP_multicast := fun s _ _ _ _ msg => ((msg.length : Int), s)
  SP_multigroup_multicast := fun s _ _ _ _ _ msg => ((msg.length : Int), s)
  SP_receive := fun s _ _ _ _ => (huge_groups_out, s)

/-- A success outcome that reports a negative group count. -/
def negative_groups_out : RecvOut :=
  { size := 5, svc_type := 0x02, sender := [], num_groups := -1, groups := [],
    msg_type := 0, endian := 0, buffer := [] }

/-- The operations on a mailbox object: its eight methods with their parsed
arguments (`receive` with the iteration budget of the model) and the teardown
of the object. -/
inductive Op where
  | disconnect
  | fileno
  | join (group : List Nat)
  | leave (group : List Nat)
  | multicast (svc_type : Int) (group msg : List Nat) (msg_type : Int)
  | multigroup_multicast (svc_type : Int) (group_tuple : List (Option (List Nat)))
      (msg : List Nat) (msg_type : Int)
  | poll
  | receive (fuel : Nat)
  | dealloc
  deriving Repr

/-- The mailbox and the world after one operation. -/
def run_op {σ : Type} (h : SpH) (host : Host) (lib : SpLib σ) (op : Op)
    (st : MailboxObject × World σ) : MailboxObject × World σ :=
  match op with
  | .disconnect => (mailbox_disconnect h lib st.1 st.2).2
  | .fileno => (mailbox_fileno st.1 st.2).2
  | .join group => (mailbox_join h lib st.1 group st.2).2
  | .leave group => (mailbox_leave h lib st.1 group st.2).2
  | .multicast svc_type group msg msg_type =>
    (mailbox_multicast h lib st.1 svc_type group msg msg_type st.2).2
  | .multigroup_multicast svc_type group_tuple msg msg_type =>
    (mailbox_multigroup_multicast h host lib st.1 svc_type group_tuple msg msg_type st.2).2
  | .poll => (mailbox_poll h lib st.1 st.2).2
  | .receive fuel => (mailbox_receive h host lib fuel st.1 st.2).2
  | .dealloc => (st.1, mailbox_dealloc lib st.1 st.2)

/-- The mailbox and the world after a sequence of operations. -/
def run_ops {σ : Type} (h : SpH) (host : Host) (lib : SpLib σ) :
    List Op → MailboxObject × World σ → MailboxObject × World σ
  | [], st => st
  | op :: ops, st => run_ops h host lib ops (run_op h host lib op st)

/-- Side conditions on the header and on the pending message under which the
contract of the receive primitive is meaningful: the two too-short codes are
distinct negative numbers, the success scalar `endian` is non-negative, and
payload size and group count are representable as `int`. -/
structure Receivable (h : SpH) (p : Pending) : Prop where
  buffer_code : h.BUFFER_TOO_SHORT < 0
  groups_code : h.GROUPS_TOO_SHORT < 0
  codes_ne : h.BUFFER_TOO_SHORT ≠ h.GROUPS_TOO_SHORT
  endian_nonneg : 0 ≤ p.endian
  size_int : (p.payload.length : Int) < 2 ^ 31
  count_int : (p.groups.length : Int) < 2 ^ 31

/-- Test for an `SP_receive` entry of the call log. -/
def SpCall.is_receive : SpCall → Bool
  | .SP_receive _ _ _ _ _ _ => true
  | _ => false

/-- The combinations of return value and output scalars of `SP_receive` that the
toolkit contract rules out. -/
def consistency_fault (h : SpH) (out : RecvOut) : Prop :=
  (out.size ≥ 0 ∧ (out.num_groups < 0 ∨ out.endian < 0)) ∨
  (out.size = h.BUFFER_TOO_SHORT ∧ out.endian ≥ 0) ∨
  (out.size = h.GROUPS_TOO_SHORT ∧ out.num_groups ≥ 0)

/-- Test for the AssertionError of the receive loop. -/
def PyErr.is_assert_error : PyErr → Bool
  | .assert_error _ _ _ _ _ _ => true
  | _ => false

/-- The outcome of a receive whose service type has the membership bit and two
cause bits, `CAUSED_BY_JOIN` and `CAUSED_BY_LEAVE`. -/
def join_leave_out : RecvOut :=
  { size := 0, svc_type := 0x1300, sender := [103, 0], num_groups := 1,
    groups := [35, 97, 0], msg_type := 0, endian := 0, buffer := [] }

/-- A toolkit whose receive primitive reports success with a negative group
count. -/
def faulty_lib : SpLib Unit where
  SP_disconnect := fun s _ => (0, s)
  SP_join := fun s _ _ => (0, s)
  SP_leave := fun s _ _ => (0, s)
  SP_poll := fun s _ => (0, s)
  SP_multicast := fun s _ _ _ _ msg => ((msg.length : Int), s)
  SP_multigroup_multicast := fun s _ _ _ _ _ msg => ((msg.length : Int), s)
  SP_receive := fun s _ _ _ _ => (negative_groups_out, s)

/-- A regular message with a 2-byte payload addressed to one group: both stack
buffers of `mailbox_receive` hold it. -/
def short_message : Pending :=
  { svc_type := 0x02, sender := [35, 97], groups := [[103]],
    msg_type := 0, endian := 0, payload := [104, 105], data_first := false }

/-- A regular message with a 2-byte payload addressed to 134217728 groups, each
named `g`. -/
def huge_message : Pending :=
  { svc_type := 0x02, sender := [35, 97], groups := List.replicate 134217728 [103],
    msg_type := 0, endian := 0, payload := [104, 105], data_first := false }

/-- The buffer variables after the group-buffer retry for 134217728 groups on
the 64-bit host: the block behind `groups` has 0 bytes. -/
def huge_bufs : RecvBufs :=
  { max_groups := 134217728, groups_heap := some 0, bufsize := 10000, data := none }

/-! ## Arithmetic lemmas -/

theorem wrap32_of_isInt32 {x : Int} (hx : isInt32 x) : wrap32 x = x := by
  unfold isInt32 at hx
  unfold wrap32
  norm_num at hx ⊢
  omega

theorem extra_loop_names (h : SpH) (buffer : List Nat) (k p : Nat) :
    (extra_loop h buffer k p).1 =
      (List.range k).map (fun i => PyString_FromString buffer (p + i * h.MAX_GROUP_NAME)) := by
  induction k generalizing p with
  | zero => simp [extra_loop]
  | succ k ih =>
    simp only [extra_loop, ih, List.range_succ_eq_map, List.map_cons, List.map_map]
    simp only [Nat.zero_mul, Nat.add_zero, List.cons.injEq, true_and]
    apply List.map_congr_left
    intro i _
    simp only [Function.comp, Nat.succ_eq_add_one]
    congr 1
    ring

theorem extra_loop_reads_head (h : SpH) (buffer : List Nat) (k p : Nat) :
    p ∈ (extra_loop h buffer (k + 1) p).2 := by
  simp [extra_loop, PyString_FromString_reads, List.mem_range']

theorem toU32_lt (x : Int) : toU32 x < 2 ^ 32 := by
  unfold toU32
  have h1 : 0 ≤ x % 2 ^ 32 := Int.emod_nonneg _ (by norm_num)
  have h2 : x % 2 ^ 32 < 2 ^ 32 := Int.emod_lt_of_pos _ (by norm_num)
  norm_num at h1 h2 ⊢
  omega

theorem toU32_wrap32_natCast (n : Nat) (hn : n < 2 ^ 32) : toU32 (wrap32 (n : Int)) = n := by
  unfold toU32 wrap32
  norm_num at hn ⊢
  omega

theorem toU32_c_and (a b : Int) : toU32 (c_and a b) = toU32 a &&& toU32 b := by
  unfold c_and
  exact toU32_wrap32_natCast _ (Nat.and_lt_two_pow _ (toU32_lt b))

theorem c_and_ne_of_bit_outside (a v : Int) (i : Nat)
    (ha : (toU32 a).testBit i = true) (hv : (toU32 v).testBit i = false) :
    c_and a v ≠ a := by
  intro heq
  have h1 : toU32 (c_and a v) = toU32 a := by rw [heq]
  rw [toU32_c_and] at h1
  have h2 : (toU32 a &&& toU32 v).testBit i = (toU32 a).testBit i := by rw [h1]
  rw [Nat.testBit_and, ha, hv] at h2
  cases h2

theorem c_and_zero_left (v : Int) : c_and 0 v = 0 := by
  have h0 : toU32 0 = 0 := by decide
  unfold c_and
  rw [h0, Nat.zero_and]
  decide

theorem codes_get_ne (h : SpH) (hd : h.codes.Nodup) (i j : Fin 16) (hij : i ≠ j) :
    h.codes.get ⟨i.1, i.2⟩ ≠ h.codes.get ⟨j.1, j.2⟩ := by
  intro heq
  have hk := (List.Nodup.get_inj_iff hd).mp heq
  apply hij
  apply Fin.ext
  simpa using congrArg Fin.val hk

theorem spread_error_case_flag_false (h : SpH) (c : Int)
    (h8 : ¬ c = h.CONNECTION_CLOSED) (h10 : ¬ c = h.ILLEGAL_SESSION) :
    (spread_error_case h c).2 = false := by
  unfold spread_error_case
  by_cases e0 : c = h.ILLEGAL_SPREAD
  · rw [if_pos e0]
  rw [if_neg e0]
  by_cases e1 : c = h.COULD_NOT_CONNECT
  · rw [if_pos e1]
  rw [if_neg e1]
  by_cases e2 : c = h.REJECT_QUOTA
  · rw [if_pos e2]
  rw [if_neg e2]
  by_cases e3 : c = h.REJECT_NO_NAME
  · rw [if_pos e3]
  rw [if_neg e3]
  by_cases e4 : c = h.REJECT_ILLEGAL_NAME
  · rw [if_pos e4]
  rw [if_neg e4]
  by_cases e5 : c = h.REJECT_NOT_UNIQUE
  · rw [if_pos e5]
  rw [if_neg e5]
  by_cases e6 : c = h.REJECT_VERSION
  · rw [if_pos e6]
  rw [if_neg e6]
  rw [if_neg h8]
  by_cases e8 : c = h.REJECT_AUTH
  · rw [if_pos e8]
  rw [if_neg e8]
  rw [if_neg h10]
  by_cases e10 : c = h.ILLEGAL_SERVICE
  · rw [if_pos e10]
  rw [if_neg e10]
  by_cases e11 : c = h.ILLEGAL_MESSAGE
  · rw [if_pos e11]
  rw [if_neg e11]
  by_cases e12 : c = h.ILLEGAL_GROUP
  · rw [if_pos e12]
  rw [if_neg e12]
  by_cases e13 : c = h.BUFFER_TOO_SHORT
  · rw [if_pos e13]
  rw [if_neg e13]
  by_cases e14 : c = h.GROUPS_TOO_SHORT
  · rw [if_pos e14]
  rw [if_neg e14]
  by_cases e15 : c = h.MESSAGE_TOO_LONG
  · rw [if_pos e15]
  rw [if_neg e15]

theorem spread_error_case_connection_closed (h : SpH) (hd : h.codes.Nodup) :
    (spread_error_case h h.CONNECTION_CLOSED).2 = true := by
  have n0 : h.CONNECTION_CLOSED ≠ h.ILLEGAL_SPREAD := codes_get_ne h hd 7 0 (by decide)
  have n1 : h.CONNECTION_CLOSED ≠ h.COULD_NOT_CONNECT := codes_get_ne h hd 7 1 (by decide)
  have n2 : h.CONNECTION_CLOSED ≠ h.REJECT_QUOTA := codes_get_ne h hd 7 2 (by decide)
  have n3 : h.CONNECTION_CLOSED ≠ h.REJECT_NO_NAME := codes_get_ne h hd 7 3 (by decide)
  have n4 : h.CONNECTION_CLOSED ≠ h.REJECT_ILLEGAL_NAME := codes_get_ne h hd 7 4 (by decide)
  have n5 : h.CONNECTION_CLOSED ≠ h.REJECT_NOT_UNIQUE := codes_get_ne h hd 7 5 (by decide)
  have n6 : h.CONNECTION_CLOSED ≠ h.REJECT_VERSION := codes_get_ne h hd 7 6 (by decide)
  unfold spread_error_case
  rw [if_neg n0, if_neg n1, if_neg n2, if_neg n3, if_neg n4, if_neg n5, if_neg n6, if_pos rfl]

theorem spread_error_case_illegal_session (h : SpH) (hd : h.codes.Nodup) :
    (spread_error_case h h.ILLEGAL_SESSION).2 = true := by
  have n0 : h.ILLEGAL_SESSION ≠ h.ILLEGAL_SPREAD := codes_get_ne h hd 9 0 (by decide)
  have n1 : h.ILLEGAL_SESSION ≠ h.COULD_NOT_CONNECT := codes_get_ne h hd 9 1 (by decide)
  have n2 : h.ILLEGAL_SESSION ≠ h.REJECT_QUOTA := codes_get_ne h hd 9 2 (by decide)
  have n3 : h.ILLEGAL_SESSION ≠ h.REJECT_NO_NAME := codes_get_ne h hd 9 3 (by decide)
  have n4 : h.ILLEGAL_SESSION ≠ h.REJECT_ILLEGAL_NAME := codes_get_ne h hd 9 4 (by decide)
  have n5 : h.ILLEGAL_SESSION ≠ h.REJECT_NOT_UNIQUE := codes_get_ne h hd 9 5 (by decide)
  have n6 : h.ILLEGAL_SESSION ≠ h.REJECT_VERSION := codes_get_ne h hd 9 6 (by decide)
  have n7 : h.ILLEGAL_SESSION ≠ h.CONNECTION_CLOSED := codes_get_ne h hd 9 7 (by decide)
  have n8 : h.ILLEGAL_SESSION ≠ h.REJECT_AUTH := codes_get_ne h hd 9 8 (by decide)
  unfold spread_error_case
  rw [if_neg n0, if_neg n1, if_neg n2, if_neg n3, if_neg n4, if_neg n5, if_neg n6, if_neg n7,
    if_neg n8, if_pos rfl]

theorem to_size_t_of_lt (host : Host) (n : Int) (h0 : 0 ≤ n) (h1 : n < 2 ^ 31)
    (hb : 31 ≤ host.size_t_bits) : to_size_t host n = n.toNat := by
  unfold to_size_t
  have hpow : (2 : Int) ^ 31 ≤ 2 ^ host.size_t_bits := pow_le_pow_right₀ (by norm_num) hb
  rw [Int.emod_eq_of_lt h0 (lt_of_lt_of_le h1 hpow)]

theorem contract_receive_buffer_short (h : SpH) (p : Pending) (max_groups bufsize : Int)
    (hds : bufsize < (p.payload.length : Int))
    (hsel : p.data_first = true ∨ ¬ max_groups < (p.groups.length : Int)) :
    contract_receive h p max_groups bufsize =
      { size := h.BUFFER_TOO_SHORT, svc_type := p.svc_type, sender := [],
        num_groups := if decide (max_groups < (p.groups.length : Int)) then
          -(p.groups.length : Int) else p.groups.length,
        groups := [], msg_type := p.msg_type, endian := -(p.payload.length : Int),
        buffer := [] } := by
  unfold contract_receive
  rcases hsel with hsel | hsel <;> simp [hds, hsel]

theorem contract_receive_groups_short (h : SpH) (p : Pending) (max_groups bufsize : Int)
    (hgs : max_groups < (p.groups.length : Int))
    (hsel : p.data_first = false ∨ ¬ bufsize < (p.payload.length : Int)) :
    contract_receive h p max_groups bufsize =
      { size := h.GROUPS_TOO_SHORT, svc_type := p.svc_type, sender := [],
        num_groups := -(p.groups.length : Int),
        groups := [], msg_type := p.msg_type,
        endian := if decide (bufsize < (p.payload.length : Int)) then
          -(p.payload.length : Int) else p.endian,
        buffer := [] } := by
  unfold contract_receive
  rcases hsel with hsel | hsel <;> simp [hgs, hsel]

theorem contract_receive_delivers (h : SpH) (p : Pending) (max_groups bufsize : Int)
    (hds : ¬ bufsize < (p.payload.length : Int))
    (hgs : ¬ max_groups < (p.groups.length : Int)) :
    contract_receive h p max_groups bufsize =
      { size := p.payload.length, svc_type := p.svc_type, sender := pad_name h p.sender,
        num_groups := p.groups.length, groups := pad_names h p.groups,
        msg_type := p.msg_type, endian := p.endian, buffer := p.payload } := by
  unfold contract_receive
  simp [hds, hgs]

/-- One iteration that ends in the data-buffer retry. -/
theorem receive_loop_buffer_retry (h : SpH) (host : Host) (p : Pending)
    (hp : Deliverable h host p) (self : MailboxObject) (fuel : Nat) (b : RecvBufs)
    (calls : List SpCall) (hb0 : 0 ≤ b.bufsize)
    (hds : b.bufsize < (p.payload.length : Int))
    (hsel : p.data_first = true ∨ ¬ b.max_groups < (p.groups.length : Int)) :
    receive_loop h host (contract_lib h) (fuel + 1) b self ⟨p, calls⟩ =
      receive_loop h host (contract_lib h) fuel
        { b with bufsize := p.payload.length, data := some p.payload.length } self
        ⟨p, calls ++ [.SP_receive self.mbox 0 b.max_groups (b.groups_bytes h) b.bufsize
          b.buffer_bytes]⟩ := by
  have hS := hp.size_int
  have hB := hp.buffer_code
  have hw : wrap32 (-(-(p.payload.length : Int))) = p.payload.length := by
    rw [neg_neg]; exact wrap32_of_isInt32 ⟨by norm_num; omega, hS⟩
  have hpos : (0 : Int) < p.payload.length := lt_of_le_of_lt hb0 hds
  have hsz : ¬ (h.BUFFER_TOO_SHORT ≥ 0) := not_le.mpr hB
  have hend : ¬ (-(p.payload.length : Int) ≥ 0) := by omega
  have hnn : ¬ ((p.payload.length : Int) < 0) := by omega
  rw [receive_loop]
  simp only [contract_lib, contract_receive_buffer_short h p _ _ hds hsel, received,
    receive_iteration, hsz, if_false, if_true, hend, hw, PyString_alloc, hnn,
    Int.toNat_ofNat, hp.string_granted, World.step]

/-- One iteration that ends in the group-buffer retry. -/
theorem receive_loop_groups_retry (h : SpH) (host : Host) (p : Pending)
    (hp : Deliverable h host p) (self : MailboxObject) (fuel : Nat) (b : RecvBufs)
    (calls : List SpCall) (hg0 : 0 ≤ b.max_groups)
    (hgs : b.max_groups < (p.groups.length : Int))
    (hsel : p.data_first = false ∨ ¬ b.bufsize < (p.payload.length : Int)) :
    receive_loop h host (contract_lib h) (fuel + 1) b self ⟨p, calls⟩ =
      receive_loop h host (contract_lib h) fuel
        { b with max_groups := p.groups.length,
                 groups_heap := some (h.MAX_GROUP_NAME * p.groups.length) } self
        ⟨p, calls ++ [.SP_receive self.mbox 0 b.max_groups (b.groups_bytes h) b.bufsize
          b.buffer_bytes]⟩ := by
  have hN := hp.count_int
  have hG := hp.groups_code
  have hw : wrap32 (-(-(p.groups.length : Int))) = p.groups.length := by
    rw [neg_neg]; exact wrap32_of_isInt32 ⟨by norm_num; omega, hN⟩
  have hprod0 : (0 : Int) ≤ (h.MAX_GROUP_NAME : Int) * (p.groups.length : Int) :=
    mul_nonneg (Int.natCast_nonneg _) (Int.natCast_nonneg _)
  have hw2 : wrap32 ((h.MAX_GROUP_NAME : Int) * (p.groups.length : Int))
      = (h.MAX_GROUP_NAME : Int) * (p.groups.length : Int) :=
    wrap32_of_isInt32 ⟨by norm_num; omega, hp.groups_int⟩
  have hsize : to_size_t host ((h.MAX_GROUP_NAME : Int) * (p.groups.length : Int))
      = h.MAX_GROUP_NAME * p.groups.length := by
    rw [to_size_t_of_lt host _ hprod0 hp.groups_int hp.size_t_wide]
    rw [← Nat.cast_mul, Int.toNat_ofNat]
  have hsz : ¬ (h.GROUPS_TOO_SHORT ≥ 0) := not_le.mpr hG
  have hne : ¬ (h.GROUPS_TOO_SHORT = h.BUFFER_TOO_SHORT) := fun e => hp.codes_ne e.symm
  have hng : ¬ (-(p.groups.length : Int) ≥ 0) := by omega
  rw [receive_loop]
  simp only [contract_lib, contract_receive_groups_short h p _ _ hgs hsel, received,
    receive_iteration, hsz, hne, if_false, if_true, hng, hw, hw2, hsize, hp.block_granted,
    World.step]

/-- The iteration that receives the message. -/
theorem receive_loop_delivers (h : SpH) (host : Host) (p : Pending)
    (hp : Deliverable h host p) (self : MailboxObject) (fuel : Nat) (b : RecvBufs)
    (calls : List SpCall)
    (hds : ¬ b.bufsize < (p.payload.length : Int))
    (hgs : ¬ b.max_groups < (p.groups.length : Int)) :
    receive_loop h host (contract_lib h) (fuel + 1) b self ⟨p, calls⟩ =
      (.done (delivered h host p b) b, self,
        ⟨p, calls ++ [.SP_receive self.mbox 0 b.max_groups (b.groups_bytes h) b.bufsize
          b.buffer_bytes]⟩) := by
  have hs0 : (p.payload.length : Int) ≥ 0 := Int.natCast_nonneg _
  have hn0 : ¬ ((p.groups.length : Int) < 0) := not_lt.mpr (Int.natCast_nonneg _)
  have he0 : ¬ (p.endian < 0) := not_lt.mpr hp.endian_nonneg
  rw [receive_loop]
  simp only [contract_lib, contract_receive_delivers h p _ _ hds hgs, received,
    receive_iteration, hs0, if_true, hn0, he0, if_false, World.step, delivered]

/-- Under the contract the loop ends with the message delivered, after one call
per undersized buffer plus the delivering call, into buffers that hold it. -/
theorem receive_loop_contract (h : SpH) (host : Host) (p : Pending)
    (hp : Deliverable h host p) (self : MailboxObject) :
    ∀ (fuel : Nat) (b : RecvBufs) (calls : List SpCall), Fits h b → shortages p b < fuel →
      ∃ b1 calls1, receive_loop h host (contract_lib h) fuel b self ⟨p, calls⟩ =
          (.done (delivered h host p b1) b1, self, ⟨p, calls1⟩) ∧
        p.payload.length ≤ b1.buffer_bytes ∧
        p.groups.length * h.MAX_GROUP_NAME ≤ b1.groups_bytes h ∧
        calls1.length = calls.length + shortages p b + 1 := by
  intro fuel
  induction fuel with
  | zero => intro b calls _ hs; omega
  | succ fuel ih =>
    intro b calls hfit hs
    obtain ⟨hb0, hbcap, hg0, hgcap⟩ := hfit
    by_cases hds : b.bufsize < (p.payload.length : Int)
    · by_cases hsel : p.data_first = true ∨ ¬ b.max_groups < (p.groups.length : Int)
      · -- the data buffer is reported and replaced
        rw [receive_loop_buffer_retry h host p hp self fuel b calls hb0 hds hsel]
        have hfit1 : Fits h
            ({ b with bufsize := p.payload.length, data := some p.payload.length } : RecvBufs) :=
          ⟨Int.natCast_nonneg _, le_refl _, hg0, hgcap⟩
        have hsh : shortages p
            ({ b with bufsize := p.payload.length, data := some p.payload.length } : RecvBufs) + 1
            = shortages p b := by
          simp only [shortages, hds, if_true, lt_self_iff_false, if_false]
          omega
        obtain ⟨b1, calls1, heq, h1, h2, h3⟩ := ih _ (calls ++ [_]) hfit1 (by omega)
        refine ⟨b1, calls1, heq, h1, h2, ?_⟩
        rw [h3, List.length_append, List.length_singleton]
        omega
      · -- both are short and the group buffer is reported first
        have hgs : b.max_groups < (p.groups.length : Int) := by
          by_contra hc; exact hsel (Or.inr hc)
        have hdf : p.data_first = false := by
          cases hv : p.data_first
          · rfl
          · exact absurd (Or.inl hv) hsel
        rw [receive_loop_groups_retry h host p hp self fuel b calls hg0 hgs (Or.inl hdf)]
        have hfit1 : Fits h
            ({ b with max_groups := p.groups.length
                      groups_heap := some (h.MAX_GROUP_NAME * p.groups.length) } : RecvBufs) := by
          refine ⟨hb0, hbcap, Int.natCast_nonneg _, ?_⟩
          simp only [RecvBufs.groups_bytes, Nat.cast_mul]
          rw [mul_comm]
        have hsh : shortages p
            ({ b with max_groups := p.groups.length
                      groups_heap := some (h.MAX_GROUP_NAME * p.groups.length) } : RecvBufs) + 1
            = shortages p b := by
          simp only [shortages, hgs, if_true, lt_self_iff_false, if_false]
        obtain ⟨b1, calls1, heq, h1, h2, h3⟩ := ih _ (calls ++ [_]) hfit1 (by omega)
        refine ⟨b1, calls1, heq, h1, h2, ?_⟩
        rw [h3, List.length_append, List.length_singleton]
        omega
    · by_cases hgs : b.max_groups < (p.groups.length : Int)
      · -- only the group buffer is short
        rw [receive_loop_groups_retry h host p hp self fuel b calls hg0 hgs (Or.inr hds)]
        have hfit1 : Fits h
            ({ b with max_groups := p.groups.length
                      groups_heap := some (h.MAX_GROUP_NAME * p.groups.length) } : RecvBufs) := by
          refine ⟨hb0, hbcap, Int.natCast_nonneg _, ?_⟩
          simp only [RecvBufs.groups_bytes, Nat.cast_mul]
          rw [mul_comm]
        have hsh : shortages p
            ({ b with max_groups := p.groups.length
                      groups_heap := some (h.MAX_GROUP_NAME * p.groups.length) } : RecvBufs) + 1
            = shortages p b := by
          simp only [shortages, hgs, if_true, lt_self_iff_false, if_false]
        obtain ⟨b1, calls1, heq, h1, h2, h3⟩ := ih _ (calls ++ [_]) hfit1 (by omega)
        refine ⟨b1, calls1, heq, h1, h2, ?_⟩
        rw [h3, List.length_append, List.length_singleton]
        omega
      · -- both buffers are large enough
        rw [receive_loop_delivers h host p hp self fuel b calls hds hgs]
        refine ⟨b, _, rfl, ?_, ?_, ?_⟩
        · have : (p.payload.length : Int) ≤ b.buffer_bytes := le_trans (not_lt.mp hds) hbcap
          exact_mod_cast this
        · have h1 : (p.groups.length : Int) * h.MAX_GROUP_NAME
              ≤ b.max_groups * h.MAX_GROUP_NAME :=
            mul_le_mul_of_nonneg_right (not_lt.mp hgs) (Int.natCast_nonneg _)
          have h2 : ((p.groups.length * h.MAX_GROUP_NAME : Nat) : Int)
              ≤ (b.groups_bytes h : Int) := by
            rw [Nat.cast_mul]; exact le_trans h1 hgcap
          exact_mod_cast h2
        · simp only [shortages, hds, hgs, if_false, List.length_append, List.length_singleton]

/-- The variables on entry to the loop fit their stack buffers. -/
theorem fits_init (h : SpH) : Fits h RecvBufs.init := by
  refine ⟨?_, ?_, ?_, ?_⟩ <;>
    simp [RecvBufs.init, RecvBufs.buffer_bytes, RecvBufs.groups_bytes, DEFAULT_BUFFER_SIZE,
      DEFAULT_GROUPS_SIZE]

theorem shortages_le_two (p : Pending) (b : RecvBufs) : shortages p b ≤ 2 := by
  unfold shortages
  split_ifs <;> omega

/-- A buffer that holds what was stored into it starts with the stored bytes. -/
theorem fill_of_le (host : Host) (cap : Nat) (stored : List Nat) (hs : stored.length ≤ cap) :
    fill host cap stored =
      stored ++ (List.range' stored.length (cap - stored.length)).map host.stale := by
  unfold fill
  rw [List.take_of_length_le hs]

/-- A buffer of capacity 0 holds nothing of what the toolkit stores into it. -/
theorem fill_zero (host : Host) (stored : List Nat) : fill host 0 stored = [] := by
  simp [fill]

/-- Copying `l.length` bytes out of a buffer that starts with `l` gives `l`,
whatever follows `l` in the buffer. -/
theorem PyString_FromStringAndSize_append (l t : List Nat) :
    PyString_FromStringAndSize (l ++ t) (l.length : Int) = l := by
  unfold PyString_FromStringAndSize
  rw [Int.toNat_ofNat]
  apply List.ext_getElem
  · simp
  · intro i h1 h2
    simp [peek, List.getD_eq_getElem?_getD, List.getElem?_append_left h2,
      List.getElem?_eq_getElem h2]

/-- The copy of `size` bytes out of the data buffer after delivery is the payload. -/
theorem PyString_FromStringAndSize_fill (host : Host) (l : List Nat) (n : Nat)
    (hn : l.length ≤ n) :
    PyString_FromStringAndSize (fill host n l) (l.length : Int) = l := by
  rw [fill_of_le host n l hn]
  exact PyString_FromStringAndSize_append l _

/-- A buffer that holds what was stored into it keeps its full length. -/
theorem fill_length (host : Host) (cap : Nat) (stored : List Nat) (hs : stored.length ≤ cap) :
    (fill host cap stored).length = cap := by
  rw [fill_of_le host cap stored hs]
  simp only [List.length_append, List.length_map, List.length_range']
  omega

theorem pad_name_length (h : SpH) (g : List Nat) (hg : g.length ≤ h.MAX_GROUP_NAME) :
    (pad_name h g).length = h.MAX_GROUP_NAME := by
  simp only [pad_name, List.length_append, List.length_replicate]
  omega

theorem pad_names_length (h : SpH) (gs : List (List Nat)) (hwf : well_formed_names h gs) :
    (pad_names h gs).length = gs.length * h.MAX_GROUP_NAME := by
  induction gs with
  | nil => simp [pad_names]
  | cons g gs ih =>
    have hg := (hwf g (List.mem_cons_self _ _)).1
    have hrest : well_formed_names h gs := fun x hx => hwf x (List.mem_cons_of_mem _ hx)
    simp only [pad_names, List.length_append, List.length_cons, ih hrest,
      pad_name_length h g (le_of_lt hg)]
    ring

/-- The string at the start of a padded name is the name. -/
theorem PyString_FromString_pad_head (h : SpH) (g rest : List Nat)
    (hlen : g.length < h.MAX_GROUP_NAME) (hnz : ∀ b ∈ g, b ≠ 0) :
    PyString_FromString (pad_name h g ++ rest) 0 = g := by
  obtain ⟨k, hk⟩ : ∃ k, h.MAX_GROUP_NAME - g.length = k + 1 := ⟨_, (Nat.succ_pred_eq_of_pos
    (Nat.sub_pos_of_lt hlen)).symm⟩
  have hp : ∀ a ∈ g, (fun b : Nat => b != 0) a = true := by
    intro a ha
    simpa using hnz a ha
  simp only [PyString_FromString, List.drop_zero, pad_name, hk, List.replicate_succ,
    List.append_assoc, List.cons_append]
  rw [List.takeWhile_append_of_pos hp]
  simp

/-- Slot `i + 1` of a layout is slot `i` of the layout after its first name. -/
theorem PyString_FromString_pad_tail (h : SpH) (g rest : List Nat) (i : Nat)
    (hlen : g.length ≤ h.MAX_GROUP_NAME) :
    PyString_FromString (pad_name h g ++ rest) ((i + 1) * h.MAX_GROUP_NAME) =
      PyString_FromString rest (i * h.MAX_GROUP_NAME) := by
  have hl := pad_name_length h g hlen
  have he : (i + 1) * h.MAX_GROUP_NAME = (pad_name h g).length + i * h.MAX_GROUP_NAME := by
    rw [hl]; ring
  simp only [PyString_FromString, he, List.drop_append]

/-- Reading the slots of a buffer that starts with the layout of well-formed
names gives the names back, whatever follows the layout. -/
theorem slots_of_pad_names_append (h : SpH) (gs : List (List Nat)) (t : List Nat)
    (hwf : well_formed_names h gs) :
    (List.range gs.length).map
      (fun i => PyString_FromString (pad_names h gs ++ t) (i * h.MAX_GROUP_NAME)) = gs := by
  induction gs with
  | nil => simp
  | cons g gs ih =>
    have hg := hwf g (List.mem_cons_self _ _)
    have hrest : well_formed_names h gs := fun x hx => hwf x (List.mem_cons_of_mem _ hx)
    rw [List.length_cons, List.range_succ_eq_map, List.map_cons, List.map_map]
    simp only [pad_names, Nat.zero_mul, List.append_assoc]
    rw [PyString_FromString_pad_head h g _ hg.1 hg.2]
    congr 1
    refine Eq.trans ?_ (ih hrest)
    apply List.map_congr_left
    intro i _
    simp only [Function.comp, Nat.succ_eq_add_one]
    exact PyString_FromString_pad_tail h g _ i (le_of_lt hg.1)

/-- Reading the slots of a layout of well-formed names gives the names back. -/
theorem slots_of_pad_names (h : SpH) (gs : List (List Nat)) (hwf : well_formed_names h gs) :
    (List.range gs.length).map
      (fun i => PyString_FromString (pad_names h gs) (i * h.MAX_GROUP_NAME)) = gs := by
  induction gs with
  | nil => simp
  | cons g gs ih =>
    have hg := hwf g (List.mem_cons_self _ _)
    have hrest : well_formed_names h gs := fun x hx => hwf x (List.mem_cons_of_mem _ hx)
    rw [List.length_cons, List.range_succ_eq_map, List.map_cons, List.map_map]
    simp only [pad_names, Nat.zero_mul]
    rw [PyString_FromString_pad_head h g _ hg.1 hg.2]
    congr 1
    refine Eq.trans ?_ (ih hrest)
    apply List.map_congr_left
    intro i _
    simp only [Function.comp, Nat.succ_eq_add_one]
    exact PyString_FromString_pad_tail h g _ i (le_of_lt hg.1)

/-- The tuple built from a group buffer that holds the delivered layout. -/
theorem name_tuple_pad_names (h : SpH) (gs : List (List Nat)) (hwf : well_formed_names h gs)
    (n : Nat) (hn : gs.length * h.MAX_GROUP_NAME ≤ n) :
    name_tuple h ((pad_names h gs).take n) (gs.length : Int) = .ok gs := by
  have hl := pad_names_length h gs hwf
  have hneg : ¬ ((gs.length : Int) < 0) := not_lt.mpr (Int.natCast_nonneg _)
  rw [List.take_of_length_le (by rw [hl]; exact hn)]
  simp only [name_tuple, hneg, if_false, Int.toNat_ofNat, slots_of_pad_names h gs hwf]

/-- Reading the slots of the group buffer after delivery gives the names back. -/
theorem slots_of_delivered (h : SpH) (host : Host) (gs : List (List Nat))
    (hwf : well_formed_names h gs) (n : Nat) (hn : gs.length * h.MAX_GROUP_NAME ≤ n) :
    (List.range ((gs.length : Int).toNat)).map
      (fun i => PyString_FromString (fill host n (pad_names h gs)) (i * h.MAX_GROUP_NAME))
      = gs := by
  have hl := pad_names_length h gs hwf
  rw [fill_of_le host n _ (by rw [hl]; exact hn), Int.toNat_ofNat]
  exact slots_of_pad_names_append h gs _ hwf

/-- The loop of `mailbox_receive` under the contract, started on the stack
buffers with at least three iterations allowed. -/
theorem receive_loop_contract_init (h : SpH) (host : Host) (p : Pending)
    (hp : Deliverable h host p) (self : MailboxObject) (fuel : Nat) (calls : List SpCall)
    (hf : 3 ≤ fuel) :
    ∃ b1 calls1, receive_loop h host (contract_lib h) fuel RecvBufs.init self ⟨p, calls⟩ =
        (.done (delivered h host p b1) b1, self, ⟨p, calls1⟩) ∧
      p.payload.length ≤ b1.buffer_bytes ∧
      p.groups.length * h.MAX_GROUP_NAME ≤ b1.groups_bytes h ∧
      calls1.length = calls.length + shortages p RecvBufs.init + 1 :=
  receive_loop_contract h host p hp self fuel RecvBufs.init calls (fits_init h)
    (lt_of_le_of_lt (shortages_le_two p _) (by omega))

/-- What `mailbox_receive` returns for a regular message under the contract. -/
theorem mailbox_receive_regular (h : SpH) (host : Host) (p : Pending) (fuel : Nat)
    (self : MailboxObject) (calls : List SpCall) (hp : Deliverable h host p)
    (hreg : h.Is_regular_mess p.svc_type = true) (hc : self.disconnected = false)
    (hf : 3 ≤ fuel) :
    ∃ b1 : RecvBufs, p.groups.length * h.MAX_GROUP_NAME ≤ b1.groups_bytes h ∧
      (mailbox_receive h host (contract_lib h) fuel self ⟨p, calls⟩).1 =
        some (.ok (.Regular
          { sender := PyString_FromString (fill host h.MAX_GROUP_NAME (pad_name h p.sender)) 0,
            groups := (List.range ((p.groups.length : Int).toNat)).map (fun i =>
              PyString_FromString (fill host (b1.groups_bytes h) (pad_names h p.groups))
                (i * h.MAX_GROUP_NAME)),
            msg_type := p.msg_type, endian := p.endian, message := p.payload })) := by
  obtain ⟨b1, calls1, heq, hbuf, hgrp, _⟩ :=
    receive_loop_contract_init h host p hp self fuel calls hf
  have hneg : ¬ ((p.groups.length : Int) < 0) := not_lt.mpr (Int.natCast_nonneg _)
  have hdata : (match b1.data with
      | none =>
        PyString_FromStringAndSize (fill host b1.buffer_bytes p.payload) p.payload.length
      | some n =>
        if (n : Int) ≠ (p.payload.length : Int) then
          PyString_FromStringAndSize (fill host b1.buffer_bytes p.payload) p.payload.length
        else PyString_FromStringAndSize (fill host b1.buffer_bytes p.payload) n)
      = p.payload := by
    have hcopy := PyString_FromStringAndSize_fill host p.payload b1.buffer_bytes hbuf
    cases hd : b1.data with
    | none => exact hcopy
    | some n =>
      by_cases hn : (n : Int) = (p.payload.length : Int)
      · simp only [hn, ne_eq, not_true_eq_false, if_false]
        exact hcopy
      · simp only [hn, ne_eq, not_false_eq_true, if_true]
        exact hcopy
  refine ⟨b1, hgrp, ?_⟩
  simp only [mailbox_receive, hc, heq, decode_received, delivered, hreg, if_true,
    new_regular_msg, name_tuple, hneg, if_false, hdata, Bool.false_eq_true]

theorem big_message_payload_length : big_message.payload.length = 10001 :=
  List.length_replicate 10001 7

theorem big_message_groups_length : big_message.groups.length = 11 :=
  List.length_replicate 11 [103]

theorem join_message_groups_length : join_message.groups.length = 11 :=
  List.length_replicate 11 [35, 97]

/-- The 11-group, 10001-byte regular message can be delivered on the 64-bit
host with the Spread 3.17 header. -/
theorem big_message_deliverable : Deliverable sp_h host64 big_message where
  buffer_code := by decide
  groups_code := by decide
  codes_ne := by decide
  endian_nonneg := by decide
  size_int := by rw [big_message_payload_length]; norm_num
  count_int := by rw [big_message_groups_length]; norm_num
  groups_int := by
    rw [big_message_groups_length]
    have hm : sp_h.MAX_GROUP_NAME = 32 := rfl
    rw [hm]; norm_num
  size_t_wide := by decide
  string_granted := rfl
  block_granted := rfl

/-- The 2-byte message can be delivered on the 64-bit host with the Spread 3.17
header. -/
theorem short_message_deliverable : Deliverable sp_h host64 short_message where
  buffer_code := by decide
  groups_code := by decide
  codes_ne := by decide
  endian_nonneg := by decide
  size_int := by decide
  count_int := by decide
  groups_int := by decide
  size_t_wide := by decide
  string_granted := rfl
  block_granted := rfl

/-- The 11-member join notification can be delivered on the 64-bit host with
the Spread 3.17 header. -/
theorem join_message_deliverable : Deliverable sp_h host64 join_message where
  buffer_code := by decide
  groups_code := by decide
  codes_ne := by decide
  endian_nonneg := by decide
  size_int := by decide
  count_int := by rw [join_message_groups_length]; norm_num
  groups_int := by
    rw [join_message_groups_length]
    have hm : sp_h.MAX_GROUP_NAME = 32 := rfl
    rw [hm]; norm_num
  size_t_wide := by decide
  string_granted := rfl
  block_granted := rfl

/-- The message `spread_error` selects is the entry of the message table at the
position of the first case label equal to the code (the last entry when no label
matches). -/
theorem spread_error_case_message (h : SpH) (c : Int) :
    (spread_error_case h c).1 = spread_error_messages.getD (h.codes.indexOf c) "" := by
  unfold spread_error_case
  by_cases e0 : c = h.ILLEGAL_SPREAD
  · rw [if_pos e0]
    have hi : h.codes.indexOf c = 0 := by
      simp only [SpH.codes, List.indexOf_cons, beq_iff_eq, e0.symm,
        cond_true, cond_false, beq_self_eq_true]
    rw [hi]; rfl
  rw [if_neg e0]
  have n0 : (h.ILLEGAL_SPREAD == c) = false := by simpa using fun hh => e0 hh.symm
  by_cases e1 : c = h.COULD_NOT_CONNECT
  · rw [if_pos e1]
    have hi : h.codes.indexOf c = 1 := by
      simp only [SpH.codes, List.indexOf_cons, beq_iff_eq, n0, e1.symm,
        cond_true, cond_false, beq_self_eq_true]
    rw [hi]; rfl
  rw [if_neg e1]
  have n1 : (h.COULD_NOT_CONNECT == c) = false := by simpa using fun hh => e1 hh.symm
  by_cases e2 : c = h.REJECT_QUOTA
  · rw [if_pos e2]
    have hi : h.codes.indexOf c = 2 := by
      simp only [SpH.codes, List.indexOf_cons, beq_iff_eq, n0, n1, e2.symm,
        cond_true, cond_false, beq_self_eq_true]
    rw [hi]; rfl
  rw [if_neg e2]
  have n2 : (h.REJECT_QUOTA == c) = false := by simpa using fun hh => e2 hh.symm
  by_cases e3 : c = h.REJECT_NO_NAME
  · rw [if_pos e3]
    have hi : h.codes.indexOf c = 3 := by
      simp only [SpH.codes, List.indexOf_cons, beq_iff_eq, n0, n1, n2, e3.symm,
        cond_true, cond_false, beq_self_eq_true]
    rw [hi]; rfl
  rw [if_neg e3]
  have n3 : (h.REJECT_NO_NAME == c) = false := by simpa using fun hh => e3 hh.symm
  by_cases e4 : c = h.REJECT_ILLEGAL_NAME
  · rw [if_pos e4]
    have hi : h.codes.indexOf c = 4 := by
      simp only [SpH.codes, List.indexOf_cons, beq_iff_eq, n0, n1, n2, n3, e4.symm,
        cond_true, cond_false, beq_self_eq_true]
    rw [hi]; rfl
  rw [if_neg e4]
  have n4 : (h.REJECT_ILLEGAL_NAME == c) = false := by simpa using fun hh => e4 hh.symm
  by_cases e5 : c = h.REJECT_NOT_UNIQUE
  · rw [if_pos e5]
    have hi : h.codes.indexOf c = 5 := by
      simp only [SpH.codes, List.indexOf_cons, beq_iff_eq, n0, n1, n2, n3, n4, e5.symm,
        cond_true, cond_false, beq_self_eq_true]
    rw [hi]; rfl
  rw [if_neg e5]
  have n5 : (h.REJECT_NOT_UNIQUE == c) = false := by simpa using fun hh => e5 hh.symm
  by_cases e6 : c = h.REJECT_VERSION
  · rw [if_pos e6]
    have hi : h.codes.indexOf c = 6 := by
      simp only [SpH.codes, List.indexOf_cons, beq_iff_eq, n0, n1, n2, n3, n4, n5, e6.symm,
        cond_true, cond_false, beq_self_eq_true]
    rw [hi]; rfl
  rw [if_neg e6]
  have n6 : (h.REJECT_VERSION == c) = false := by simpa using fun hh => e6 hh.symm
  by_cases e7 : c = h.CONNECTION_CLOSED
  · rw [if_pos e7]
    have hi : h.codes.indexOf c = 7 := by
      simp only [SpH.codes, List.indexOf_cons, beq_iff_eq, n0, n1, n2, n3, n4, n5, n6, e7.symm,
        cond_true, cond_false, beq_self_eq_true]
    rw [hi]; rfl
  rw [if_neg e7]
  have n7 : (h.CONNECTION_CLOSED == c) = false := by simpa using fun hh => e7 hh.symm
  by_cases e8 : c = h.REJECT_AUTH
  · rw [if_pos e8]
    have hi : h.codes.indexOf c = 8 := by
      simp only [SpH.codes, List.indexOf_cons, beq_iff_eq, n0, n1, n2, n3, n4, n5, n6, n7, e8.symm,
        cond_true, cond_false, beq_self_eq_true]
    rw [hi]; rfl
  rw [if_neg e8]
  have n8 : (h.REJECT_AUTH == c) = false := by simpa using fun hh => e8 hh.symm
  by_cases e9 : c = h.ILLEGAL_SESSION
  · rw [if_pos e9]
    have hi : h.codes.indexOf c = 9 := by
      simp only [SpH.codes, List.indexOf_cons, beq_iff_eq, n0, n1, n2, n3, n4, n5, n6, n7, n8,
        e9.symm,
        cond_true, cond_false, beq_self_eq_true]
    rw [hi]; rfl
  rw [if_neg e9]
  have n9 : (h.ILLEGAL_SESSION == c) = false := by simpa using fun hh => e9 hh.symm
  by_cases e10 : c = h.ILLEGAL_SERVICE
  · rw [if_pos e10]
    have hi : h.codes.indexOf c = 10 := by
      simp only [SpH.codes, List.indexOf_cons, beq_iff_eq, n0, n1, n2, n3, n4, n5, n6, n7, n8,
        n9, e10.symm,
        cond_true, cond_false, beq_self_eq_true]
    rw [hi]; rfl
  rw [if_neg e10]
  have n10 : (h.ILLEGAL_SERVICE == c) = false := by simpa using fun hh => e10 hh.symm
  by_cases e11 : c = h.ILLEGAL_MESSAGE
  · rw [if_pos e11]
    have hi : h.codes.indexOf c = 11 := by
      simp only [SpH.codes, List.indexOf_cons, beq_iff_eq, n0, n1, n2, n3, n4, n5, n6, n7, n8,
        n9, n10, e11.symm,
        cond_true, cond_false, beq_self_eq_true]
    rw [hi]; rfl
  rw [if_neg e11]
  have n11 : (h.ILLEGAL_MESSAGE == c) = false := by simpa using fun hh => e11 hh.symm
  by_cases e12 : c = h.ILLEGAL_GROUP
  · rw [if_pos e12]
    have hi : h.codes.indexOf c = 12 := by
      simp only [SpH.codes, List.indexOf_cons, beq_iff_eq, n0, n1, n2, n3, n4, n5, n6, n7, n8,
        n9, n10, n11, e12.symm,
        cond_true, cond_false, beq_self_eq_true]
    rw [hi]; rfl
  rw [if_neg e12]
  have n12 : (h.ILLEGAL_GROUP == c) = false := by simpa using fun hh => e12 hh.symm
  by_cases e13 : c = h.BUFFER_TOO_SHORT
  · rw [if_pos e13]
    have hi : h.codes.indexOf c = 13 := by
      simp only [SpH.codes, List.indexOf_cons, beq_iff_eq, n0, n1, n2, n3, n4, n5, n6, n7, n8,
        n9, n10, n11, n12, e13.symm,
        cond_true, cond_false, beq_self_eq_true]
    rw [hi]; rfl
  rw [if_neg e13]
  have n13 : (h.BUFFER_TOO_SHORT == c) = false := by simpa using fun hh => e13 hh.symm
  by_cases e14 : c = h.GROUPS_TOO_SHORT
  · rw [if_pos e14]
    have hi : h.codes.indexOf c = 14 := by
      simp only [SpH.codes, List.indexOf_cons, beq_iff_eq, n0, n1, n2, n3, n4, n5, n6, n7, n8,
        n9, n10, n11, n12, n13, e14.symm,
        cond_true, cond_false, beq_self_eq_true]
    rw [hi]; rfl
  rw [if_neg e14]
  have n14 : (h.GROUPS_TOO_SHORT == c) = false := by simpa using fun hh => e14 hh.symm
  by_cases e15 : c = h.MESSAGE_TOO_LONG
  · rw [if_pos e15]
    have hi : h.codes.indexOf c = 15 := by
      simp only [SpH.codes, List.indexOf_cons, beq_iff_eq, n0, n1, n2, n3, n4, n5, n6, n7, n8,
        n9, n10, n11, n12, n13, n14, e15.symm,
        cond_true, cond_false, beq_self_eq_true]
    rw [hi]; rfl
  rw [if_neg e15]
  have n15 : (h.MESSAGE_TOO_LONG == c) = false := by simpa using fun hh => e15 hh.symm
  have hi : h.codes.indexOf c = 16 := by
    simp only [SpH.codes, List.indexOf_cons, List.indexOf_nil, n0, n1, n2, n3, n4, n5, n6, n7,
      n8, n9, n10, n11, n12, n13, n14, n15, cond_false]
  rw [hi]; rfl

theorem spread_error_messages_nodup : spread_error_messages.Nodup := by decide

/-- Two positions of the message table with the same entry coincide. -/
theorem spread_error_messages_inj (i j : Nat) (hi : i ≤ 16) (hj : j ≤ 16)
    (he : spread_error_messages.getD i "" = spread_error_messages.getD j "") : i = j := by
  have hlen : spread_error_messages.length = 17 := rfl
  have hi2 : i < spread_error_messages.length := by rw [hlen]; omega
  have hj2 : j < spread_error_messages.length := by rw [hlen]; omega
  rw [List.getD_eq_getElem _ _ hi2, List.getD_eq_getElem _ _ hj2] at he
  exact (List.Nodup.getElem_inj_iff spread_error_messages_nodup).mp he

theorem codes_indexOf_le (h : SpH) (c : Int) : h.codes.indexOf c ≤ 16 :=
  List.indexOf_le_length

theorem c_and_subset_mask (a v : Int) : toU32 (c_and a v) &&& toU32 v = toU32 (c_and a v) := by
  rw [toU32_c_and, Nat.land_assoc, Nat.and_self]

/-- The side conditions of delivery include those of the contract. -/
theorem Deliverable.receivable {h : SpH} {host : Host} {p : Pending}
    (hp : Deliverable h host p) : Receivable h p :=
  { buffer_code := hp.buffer_code, groups_code := hp.groups_code, codes_ne := hp.codes_ne,
    endian_nonneg := hp.endian_nonneg, size_int := hp.size_int, count_int := hp.count_int }

/-- One iteration on a too small data buffer: retry with a buffer of the payload
size, or leave with MemoryError when the host refuses it. -/
theorem receive_loop_buffer_step (h : SpH) (host : Host) (p : Pending)
    (hr : Receivable h p) (self : MailboxObject) (fuel : Nat) (b : RecvBufs)
    (calls : List SpCall) (hb0 : 0 ≤ b.bufsize)
    (hds : b.bufsize < (p.payload.length : Int))
    (hsel : p.data_first = true ∨ ¬ b.max_groups < (p.groups.length : Int)) :
    receive_loop h host (contract_lib h) (fuel + 1) b self ⟨p, calls⟩ =
      if host.pystring_ok p.payload.length then
        receive_loop h host (contract_lib h) fuel
          { b with bufsize := p.payload.length, data := some p.payload.length } self
          ⟨p, calls ++ [.SP_receive self.mbox 0 b.max_groups (b.groups_bytes h) b.bufsize
            b.buffer_bytes]⟩
      else
        (.failed .MemoryError, self,
          ⟨p, calls ++ [.SP_receive self.mbox 0 b.max_groups (b.groups_bytes h) b.bufsize
            b.buffer_bytes]⟩) := by
  have hS := hr.size_int
  have hB := hr.buffer_code
  have hw : wrap32 (-(-(p.payload.length : Int))) = p.payload.length := by
    rw [neg_neg]; exact wrap32_of_isInt32 ⟨by norm_num; omega, hS⟩
  have hpos : (0 : Int) < p.payload.length := lt_of_le_of_lt hb0 hds
  have hsz : ¬ (h.BUFFER_TOO_SHORT ≥ 0) := not_le.mpr hB
  have hend : ¬ (-(p.payload.length : Int) ≥ 0) := by omega
  have hnn : ¬ ((p.payload.length : Int) < 0) := by omega
  rw [receive_loop]
  by_cases hok : host.pystring_ok p.payload.length = true
  · simp only [contract_lib, contract_receive_buffer_short h p _ _ hds hsel, received,
      receive_iteration, hsz, if_false, if_true, hend, hw, PyString_alloc, hnn,
      Int.toNat_ofNat, hok, World.step]
  · simp only [contract_lib, contract_receive_buffer_short h p _ _ hds hsel, received,
      receive_iteration, hsz, if_false, if_true, hend, hw, PyString_alloc, hnn,
      Int.toNat_ofNat, hok, World.step, Bool.false_eq_true]

/-- One iteration on a too small group buffer: retry with a block of the size
`malloc` was asked for, or leave with MemoryError when the host refuses it. -/
theorem receive_loop_groups_step (h : SpH) (host : Host) (p : Pending)
    (hr : Receivable h p) (self : MailboxObject) (fuel : Nat) (b : RecvBufs)
    (calls : List SpCall) (hg0 : 0 ≤ b.max_groups)
    (hgs : b.max_groups < (p.groups.length : Int))
    (hsel : p.data_first = false ∨ ¬ b.bufsize < (p.payload.length : Int)) :
    receive_loop h host (contract_lib h) (fuel + 1) b self ⟨p, calls⟩ =
      if host.malloc_ok (to_size_t host (wrap32 (h.MAX_GROUP_NAME * p.groups.length))) then
        receive_loop h host (contract_lib h) fuel
          { b with max_groups := p.groups.length
                   groups_heap := some
                     (to_size_t host (wrap32 (h.MAX_GROUP_NAME * p.groups.length))) } self
          ⟨p, calls ++ [.SP_receive self.mbox 0 b.max_groups (b.groups_bytes h) b.bufsize
            b.buffer_bytes]⟩
      else
        (.failed .MemoryError, self,
          ⟨p, calls ++ [.SP_receive self.mbox 0 b.max_groups (b.groups_bytes h) b.bufsize
            b.buffer_bytes]⟩) := by
  have hN := hr.count_int
  have hG := hr.groups_code
  have hw : wrap32 (-(-(p.groups.length : Int))) = p.groups.length := by
    rw [neg_neg]; exact wrap32_of_isInt32 ⟨by norm_num; omega, hN⟩
  have hsz : ¬ (h.GROUPS_TOO_SHORT ≥ 0) := not_le.mpr hG
  have hne : ¬ (h.GROUPS_TOO_SHORT = h.BUFFER_TOO_SHORT) := fun e => hr.codes_ne e.symm
  have hng : ¬ (-(p.groups.length : Int) ≥ 0) := by omega
  rw [receive_loop]
  by_cases hok : host.malloc_ok
      (to_size_t host (wrap32 (h.MAX_GROUP_NAME * p.groups.length))) = true
  · simp only [contract_lib, contract_receive_groups_short h p _ _ hgs hsel, received,
      receive_iteration, hsz, hne, if_false, if_true, hng, hw, hok, World.step]
  · simp only [contract_lib, contract_receive_groups_short h p _ _ hgs hsel, received,
      receive_iteration, hsz, hne, if_false, if_true, hng, hw, hok, World.step,
      Bool.false_eq_true]

/-- The iteration in which both capacities suffice ends the loop. -/
theorem receive_loop_deliver_step (h : SpH) (host : Host) (p : Pending)
    (hr : Receivable h p) (self : MailboxObject) (fuel : Nat) (b : RecvBufs)
    (calls : List SpCall)
    (hds : ¬ b.bufsize < (p.payload.length : Int))
    (hgs : ¬ b.max_groups < (p.groups.length : Int)) :
    receive_loop h host (contract_lib h) (fuel + 1) b self ⟨p, calls⟩ =
      (.done (delivered h host p b) b, self,
        ⟨p, calls ++ [.SP_receive self.mbox 0 b.max_groups (b.groups_bytes h) b.bufsize
          b.buffer_bytes]⟩) := by
  have hs0 : (p.payload.length : Int) ≥ 0 := Int.natCast_nonneg _
  have hn0 : ¬ ((p.groups.length : Int) < 0) := not_lt.mpr (Int.natCast_nonneg _)
  have he0 : ¬ (p.endian < 0) := not_lt.mpr hr.endian_nonneg
  rw [receive_loop]
  simp only [contract_lib, contract_receive_delivers h p _ _ hds hgs, received,
    receive_iteration, hs0, if_true, hn0, he0, if_false, World.step, delivered]

/-- Under the contract the loop stops after at most one call per undersized
buffer plus one, whatever the host does with the allocation requests. -/
theorem receive_loop_terminates (h : SpH) (host : Host) (p : Pending)
    (hr : Receivable h p) (self : MailboxObject) :
    ∀ (fuel : Nat) (b : RecvBufs) (calls : List SpCall),
      0 ≤ b.bufsize → 0 ≤ b.max_groups → shortages p b < fuel →
      ∃ exit added, receive_loop h host (contract_lib h) fuel b self ⟨p, calls⟩ =
          (exit, self, ⟨p, calls ++ added⟩) ∧
        exit ≠ .running ∧ 1 ≤ added.length ∧ added.length ≤ shortages p b + 1 ∧
        ∀ c ∈ added, c.is_receive = true := by
  intro fuel
  induction fuel with
  | zero => intro b calls _ _ hs; omega
  | succ fuel ih =>
    intro b calls hb0 hg0 hs
    have hone : ∀ c : SpCall, c.is_receive = true → ∀ exit : LoopExit, exit ≠ .running →
        ∃ exit1 added, ((exit, self, (⟨p, calls ++ [c]⟩ : World Pending)) =
            (exit1, self, ⟨p, calls ++ added⟩)) ∧
          exit1 ≠ .running ∧ 1 ≤ added.length ∧ added.length ≤ shortages p b + 1 ∧
          ∀ c1 ∈ added, c1.is_receive = true := by
      intro c hc exit hex
      refine ⟨exit, [c], rfl, hex, by simp, by simp, ?_⟩
      intro c1 hc1
      rw [List.mem_singleton] at hc1
      rw [hc1]; exact hc
    have hmore : ∀ (c : SpCall) (b1 : RecvBufs), c.is_receive = true →
        0 ≤ b1.bufsize → 0 ≤ b1.max_groups → shortages p b1 + 1 = shortages p b →
        ∃ exit1 added, receive_loop h host (contract_lib h) fuel b1 self ⟨p, calls ++ [c]⟩ =
            (exit1, self, ⟨p, calls ++ added⟩) ∧
          exit1 ≠ .running ∧ 1 ≤ added.length ∧ added.length ≤ shortages p b + 1 ∧
          ∀ c1 ∈ added, c1.is_receive = true := by
      intro c b1 hc h1 h2 hsh
      obtain ⟨exit1, added1, heq, hex, hl1, hl2, hall⟩ := ih b1 (calls ++ [c]) h1 h2 (by omega)
      refine ⟨exit1, c :: added1, ?_, hex, by simp, ?_, ?_⟩
      · rw [heq, List.append_assoc, List.singleton_append]
      · rw [List.length_cons]; omega
      · intro c1 hc1
        rcases List.mem_cons.mp hc1 with hc1 | hc1
        · rw [hc1]; exact hc
        · exact hall c1 hc1
    by_cases hds : b.bufsize < (p.payload.length : Int)
    · by_cases hsel : p.data_first = true ∨ ¬ b.max_groups < (p.groups.length : Int)
      · rw [receive_loop_buffer_step h host p hr self fuel b calls hb0 hds hsel]
        by_cases hok : host.pystring_ok p.payload.length = true
        · rw [if_pos hok]
          refine hmore _ _ rfl (Int.natCast_nonneg _) hg0 ?_
          simp only [shortages, hds, if_true, lt_self_iff_false, if_false]
          omega
        · rw [if_neg hok]
          exact hone (.SP_receive self.mbox 0 b.max_groups (b.groups_bytes h) b.bufsize
            b.buffer_bytes) rfl _ (by intro hh; cases hh)
      · have hgs : b.max_groups < (p.groups.length : Int) := by
          by_contra hc; exact hsel (Or.inr hc)
        have hdf : p.data_first = false := by
          cases hv : p.data_first
          · rfl
          · exact absurd (Or.inl hv) hsel
        rw [receive_loop_groups_step h host p hr self fuel b calls hg0 hgs (Or.inl hdf)]
        by_cases hok : host.malloc_ok
            (to_size_t host (wrap32 (h.MAX_GROUP_NAME * p.groups.length))) = true
        · rw [if_pos hok]
          refine hmore _ _ rfl hb0 (Int.natCast_nonneg _) ?_
          simp only [shortages, hgs, if_true, lt_self_iff_false, if_false]
        · rw [if_neg hok]
          exact hone (.SP_receive self.mbox 0 b.max_groups (b.groups_bytes h) b.bufsize
            b.buffer_bytes) rfl _ (by intro hh; cases hh)
    · by_cases hgs : b.max_groups < (p.groups.length : Int)
      · rw [receive_loop_groups_step h host p hr self fuel b calls hg0 hgs (Or.inr hds)]
        by_cases hok : host.malloc_ok
            (to_size_t host (wrap32 (h.MAX_GROUP_NAME * p.groups.length))) = true
        · rw [if_pos hok]
          refine hmore _ _ rfl hb0 (Int.natCast_nonneg _) ?_
          simp only [shortages, hgs, if_true, lt_self_iff_false, if_false]
        · rw [if_neg hok]
          exact hone (.SP_receive self.mbox 0 b.max_groups (b.groups_bytes h) b.bufsize
            b.buffer_bytes) rfl _ (by intro hh; cases hh)
      · rw [receive_loop_deliver_step h host p hr self fuel b calls hds hgs]
        exact hone (.SP_receive self.mbox 0 b.max_groups (b.groups_bytes h) b.bufsize
          b.buffer_bytes) rfl _ (by intro hh; cases hh)

theorem big_message_shortages : shortages big_message RecvBufs.init = 2 := by
  simp only [shortages, big_message_payload_length, big_message_groups_length]
  decide

/-- The data-buffer retry of one iteration, for a required size in `int` range
that the host grants. -/
theorem receive_iteration_buffer_too_short (h : SpH) (host : Host) (out : RecvOut)
    (bufs : RecvBufs) (self : MailboxObject) (r : Int)
    (hB : h.BUFFER_TOO_SHORT < 0) (hs : out.size = h.BUFFER_TOO_SHORT)
    (hr0 : 0 < r) (hr1 : r < 2 ^ 31) (he : out.endian = -r)
    (hok : host.pystring_ok r.toNat = true) :
    receive_iteration h host out bufs self =
      .ok { bufs with bufsize := r, data := some r.toNat } := by
  have hsz : ¬ (h.BUFFER_TOO_SHORT ≥ 0) := not_le.mpr hB
  have hend : ¬ (-r ≥ 0) := by omega
  have hw : wrap32 (-(-r)) = r := by
    rw [neg_neg]; exact wrap32_of_isInt32 ⟨by norm_num; omega, hr1⟩
  have hnn : ¬ (r < 0) := by omega
  simp only [receive_iteration, hs, hsz, if_false, if_true, he, hend, hw, PyString_alloc, hnn,
    hok]

/-- The group-buffer retry of one iteration, for a required count whose byte
size is in `int` range and granted by the host. -/
theorem receive_iteration_groups_too_short (h : SpH) (host : Host) (out : RecvOut)
    (bufs : RecvBufs) (self : MailboxObject) (g : Int)
    (hG : h.GROUPS_TOO_SHORT < 0) (hne : h.BUFFER_TOO_SHORT ≠ h.GROUPS_TOO_SHORT)
    (hs : out.size = h.GROUPS_TOO_SHORT)
    (hg0 : 0 < g) (hfit : (h.MAX_GROUP_NAME : Int) * g < 2 ^ 31) (hg1 : g < 2 ^ 31)
    (hn : out.num_groups = -g) (hbits : 31 ≤ host.size_t_bits)
    (hok : host.malloc_ok ((h.MAX_GROUP_NAME : Int) * g).toNat = true) :
    receive_iteration h host out bufs self =
      .ok { bufs with max_groups := g
                      groups_heap := some ((h.MAX_GROUP_NAME : Int) * g).toNat } := by
  have hsz : ¬ (h.GROUPS_TOO_SHORT ≥ 0) := not_le.mpr hG
  have hne2 : ¬ (h.GROUPS_TOO_SHORT = h.BUFFER_TOO_SHORT) := fun e => hne e.symm
  have hng : ¬ (-g ≥ 0) := by omega
  have hw : wrap32 (-(-g)) = g := by
    rw [neg_neg]; exact wrap32_of_isInt32 ⟨by norm_num; omega, hg1⟩
  have hprod0 : (0 : Int) ≤ (h.MAX_GROUP_NAME : Int) * g :=
    mul_nonneg (Int.natCast_nonneg _) (le_of_lt hg0)
  have hw2 : wrap32 ((h.MAX_GROUP_NAME : Int) * g) = (h.MAX_GROUP_NAME : Int) * g :=
    wrap32_of_isInt32 ⟨by norm_num; omega, hfit⟩
  have hsize := to_size_t_of_lt host _ hprod0 hfit hbits
  simp only [receive_iteration, hs, hsz, hne2, if_false, if_true, hn, hng, hw, hw2, hsize, hok]

/-- One iteration raises the AssertionError of the loop on every outcome the
contract rules out, with the scalars of the outcome and the mailbox untouched. -/
theorem receive_iteration_fault (h : SpH) (host : Host) (out : RecvOut) (bufs : RecvBufs)
    (self : MailboxObject) (hB : h.BUFFER_TOO_SHORT < 0) (hG : h.GROUPS_TOO_SHORT < 0)
    (hne : h.BUFFER_TOO_SHORT ≠ h.GROUPS_TOO_SHORT) (hf : consistency_fault h out) :
    ∃ msg, receive_iteration h host out bufs self =
      .error (.failed (.assert_error msg out.size out.svc_type out.num_groups out.msg_type
        out.endian), self) := by
  unfold receive_iteration
  rcases hf with ⟨hs, hng | hen⟩ | ⟨hs, hen⟩ | ⟨hs, hng⟩
  · exact ⟨_, by rw [if_pos hs, if_pos hng]⟩
  · by_cases hng : out.num_groups < 0
    · exact ⟨_, by rw [if_pos hs, if_pos hng]⟩
    · exact ⟨_, by rw [if_pos hs, if_neg hng, if_pos hen]⟩
  · have hsz : ¬ (out.size ≥ 0) := by rw [hs]; exact not_le.mpr hB
    exact ⟨_, by rw [if_neg hsz, if_pos hs, if_pos hen]⟩
  · have hsz : ¬ (out.size ≥ 0) := by rw [hs]; exact not_le.mpr hG
    have hnb : ¬ (out.size = h.BUFFER_TOO_SHORT) := by rw [hs]; exact fun e => hne e.symm
    exact ⟨_, by rw [if_neg hsz, if_neg hnb, if_pos hs, if_pos hng]⟩

/-- One iteration never raises the AssertionError of the loop on an outcome the
contract allows. -/
theorem receive_iteration_no_fault (h : SpH) (host : Host) (out : RecvOut) (bufs : RecvBufs)
    (self : MailboxObject) (hf : ¬ consistency_fault h out) (e : PyErr) (s : MailboxObject)
    (he : receive_iteration h host out bufs self = .error (.failed e, s)) :
    e.is_assert_error = false := by
  unfold consistency_fault at hf
  unfold receive_iteration at he
  by_cases hs : out.size ≥ 0
  · have hng : ¬ out.num_groups < 0 := fun hh => hf (Or.inl ⟨hs, Or.inl hh⟩)
    have hen : ¬ out.endian < 0 := fun hh => hf (Or.inl ⟨hs, Or.inr hh⟩)
    rw [if_pos hs, if_neg hng, if_neg hen] at he
    injection he with he
    injection he with he _
    cases he
  · rw [if_neg hs] at he
    by_cases hb : out.size = h.BUFFER_TOO_SHORT
    · have hen : ¬ out.endian ≥ 0 := fun hh => hf (Or.inr (Or.inl ⟨hb, hh⟩))
      rw [if_pos hb, if_neg hen] at he
      simp only [PyString_alloc] at he
      by_cases hneg : wrap32 (-out.endian) < 0
      · simp only [hneg, if_true] at he
        injection he with he
        injection he with he _
        injection he with he
        rw [← he]; rfl
      · by_cases hok : host.pystring_ok (wrap32 (-out.endian)).toNat = true
        · simp only [hneg, if_false, hok, if_true] at he
          cases he
        · simp only [hneg, if_false, hok, Bool.false_eq_true] at he
          injection he with he
          injection he with he _
          injection he with he
          rw [← he]; rfl
    · rw [if_neg hb] at he
      by_cases hg : out.size = h.GROUPS_TOO_SHORT
      · have hng : ¬ out.num_groups ≥ 0 := fun hh => hf (Or.inr (Or.inr ⟨hg, hh⟩))
        rw [if_pos hg, if_neg hng] at he
        by_cases hok : host.malloc_ok (to_size_t host
            (wrap32 (h.MAX_GROUP_NAME * wrap32 (-out.num_groups)))) = true
        · simp only [hok, if_true] at he
          cases he
        · simp only [hok, Bool.false_eq_true, if_false] at he
          injection he with he
          injection he with he _
          injection he with he
          rw [← he]; rfl
      · rw [if_neg hg] at he
        simp only [spread_error_self, spread_error] at he
        injection he with he
        injection he with he _
        injection he with he
        rw [← he]; rfl

/-- One iteration maps every other negative return value through `spread_error`. -/
theorem receive_iteration_spread_error (h : SpH) (host : Host) (out : RecvOut)
    (bufs : RecvBufs) (self : MailboxObject) (hs : out.size < 0)
    (hb : out.size ≠ h.BUFFER_TOO_SHORT) (hg : out.size ≠ h.GROUPS_TOO_SHORT) :
    receive_iteration h host out bufs self =
      .error (.failed (spread_error h out.size (some self)).1,
        (spread_error_self h out.size self).2) := by
  have hsz : ¬ (out.size ≥ 0) := not_le.mpr hs
  simp only [receive_iteration, hsz, hb, hg, if_false, spread_error_self]

/-- An iteration that leaves the loop adds exactly its own call to the log. -/
theorem receive_loop_exit {σ : Type} (h : SpH) (host : Host) (lib : SpLib σ) (fuel : Nat)
    (bufs : RecvBufs) (self : MailboxObject) (w : World σ) (exit : LoopExit)
    (s : MailboxObject)
    (he : receive_iteration h host
      (received h host bufs (lib.SP_receive w.state self.mbox 0 bufs.max_groups bufs.bufsize).1)
      bufs self = .error (exit, s)) :
    receive_loop h host lib (fuel + 1) bufs self w =
      (exit, s, w.step (.SP_receive self.mbox 0 bufs.max_groups (bufs.groups_bytes h)
        bufs.bufsize bufs.buffer_bytes)
        (lib.SP_receive w.state self.mbox 0 bufs.max_groups bufs.bufsize).2) := by
  rw [receive_loop]
  simp only [he]

theorem huge_message_groups_length : huge_message.groups.length = 134217728 :=
  List.length_replicate 134217728 [103]

theorem huge_message_receivable : Receivable sp_h huge_message where
  buffer_code := by decide
  groups_code := by decide
  codes_ne := by decide
  endian_nonneg := by decide
  size_int := by decide
  count_int := by rw [huge_message_groups_length]; norm_num

/-- The loop on the 134217728-group message: the retry asks `malloc` for
`32 * 134217728` bytes, which is 0 in `int`, and the delivering call is made
with `max_groups = 134217728` and the 0-byte block. -/
theorem huge_message_loop :
    receive_loop sp_h host64 (contract_lib sp_h) 3 RecvBufs.init open_mbox ⟨huge_message, []⟩ =
      (.done (delivered sp_h host64 huge_message huge_bufs) huge_bufs, open_mbox,
        ⟨huge_message, [.SP_receive 3 0 10 320 10000 10000,
          .SP_receive 3 0 134217728 0 10000 10000]⟩) := by
  have hN := huge_message_groups_length
  have hz : to_size_t host64
      (wrap32 ((sp_h.MAX_GROUP_NAME : Int) * (huge_message.groups.length : Int))) = 0 := by
    rw [hN]; decide
  have hgs : RecvBufs.init.max_groups < (huge_message.groups.length : Int) := by
    rw [hN]; decide
  have hds : ¬ RecvBufs.init.bufsize < (huge_message.payload.length : Int) := by decide
  have hm : host64.malloc_ok 0 = true := rfl
  rw [receive_loop_groups_step sp_h host64 huge_message huge_message_receivable open_mbox 2
    RecvBufs.init [] (by decide) hgs (Or.inr hds), hz, if_pos hm]
  have hb : ({ RecvBufs.init with
      max_groups := (huge_message.groups.length : Int), groups_heap := some 0 } : RecvBufs) =
      huge_bufs := by
    rw [hN]; rfl
  rw [hb]
  have hgs2 : ¬ huge_bufs.max_groups < (huge_message.groups.length : Int) := by
    rw [hN]; decide
  have hds2 : ¬ huge_bufs.bufsize < (huge_message.payload.length : Int) := by decide
  rw [receive_loop_deliver_step sp_h host64 huge_message huge_message_receivable open_mbox 1
    huge_bufs _ hds2 hgs2]
  rfl

/-- The success path of `new_membership_msg` through the extension region. -/
theorem new_membership_msg_extension_eq (h : SpH) (host : Host) (type : Int)
    (group : List Nat) (num_members : Int) (members buffer : List Nat) (size : Int)
    (hmem : 0 ≤ num_members)
    (hvs : (h.SP_get_vs_set_offset_memb_mess : Int) ≤ size)
    (hchk : ¬ wrap32 (size - h.SP_get_vs_set_offset_memb_mess) <
      wrap32 (load_int32 host buffer h.SP_get_num_vs_offset_memb_mess * h.MAX_GROUP_NAME))
    (hn0 : 0 ≤ load_int32 host buffer h.SP_get_num_vs_offset_memb_mess) :
    new_membership_msg h host type group num_members members buffer size =
      (.ok { reason := c_and type (CAUSED_BY_MASK h), group := group,
             group_id := some (new_group_id host buffer h.SP_get_gid_offset_memb_mess),
             members := (List.range num_members.toNat).map
               (fun i => PyString_FromString members (i * h.MAX_GROUP_NAME)),
             extra := (extra_loop h buffer
               (load_int32 host buffer h.SP_get_num_vs_offset_memb_mess).toNat
               h.SP_get_vs_set_offset_memb_mess).1 },
       List.range' h.SP_get_gid_offset_memb_mess 12 ++
         List.range' h.SP_get_num_vs_offset_memb_mess 4 ++
         (extra_loop h buffer (load_int32 host buffer h.SP_get_num_vs_offset_memb_mess).toNat
           h.SP_get_vs_set_offset_memb_mess).2) := by
  have hm : ¬ num_members < 0 := not_lt.mpr hmem
  have hn : ¬ load_int32 host buffer h.SP_get_num_vs_offset_memb_mess < 0 := not_lt.mpr hn0
  simp only [new_membership_msg, name_tuple, hm, if_false, hvs, if_true, hchk, hn]

/-- The path of `new_membership_msg` that skips the extension region. -/
theorem new_membership_msg_no_extension_eq (h : SpH) (host : Host) (type : Int)
    (group : List Nat) (num_members : Int) (members buffer : List Nat) (size : Int)
    (hmem : 0 ≤ num_members) (hsize : size < h.SP_get_vs_set_offset_memb_mess) :
    new_membership_msg h host type group num_members members buffer size =
      (.ok { reason := c_and type (CAUSED_BY_MASK h), group := group, group_id := none,
             members := (List.range num_members.toNat).map
               (fun i => PyString_FromString members (i * h.MAX_GROUP_NAME)),
             extra := [] }, []) := by
  have hm : ¬ num_members < 0 := not_lt.mpr hmem
  have hs : ¬ ((h.SP_get_vs_set_offset_memb_mess : Int) ≤ size) := not_le.mpr hsize
  simp only [new_membership_msg, name_tuple, hm, if_false, hs]

/-- The only errors of `new_membership_msg` are the corruption error and the
SystemError of a negative tuple length. -/
theorem new_membership_msg_error_kind (h : SpH) (host : Host) (type : Int)
    (group : List Nat) (num_members : Int) (members buffer : List Nat) (size : Int)
    (e : PyErr)
    (he : (new_membership_msg h host type group num_members members buffer size).1 = .error e) :
    e = .SystemError ∨ ∃ n r, e = .corrupted n r := by
  unfold new_membership_msg name_tuple at he
  by_cases hm : num_members < 0
  · simp only [hm, if_true] at he
    injection he with he
    exact Or.inl he.symm
  · simp only [hm, if_false] at he
    by_cases hvs : (h.SP_get_vs_set_offset_memb_mess : Int) ≤ size
    · simp only [hvs, if_true] at he
      by_cases hchk : wrap32 (size - h.SP_get_vs_set_offset_memb_mess) <
          wrap32 (load_int32 host buffer h.SP_get_num_vs_offset_memb_mess * h.MAX_GROUP_NAME)
      · simp only [hchk, if_true] at he
        injection he with he
        exact Or.inr ⟨_, _, he.symm⟩
      · simp only [hchk, if_false] at he
        by_cases hn : load_int32 host buffer h.SP_get_num_vs_offset_memb_mess < 0
        · simp only [hn, if_true] at he
          injection he with he
          exact Or.inl he.symm
        · simp only [hn, if_false] at he
          cases he
    · simp only [hvs, if_false] at he
      cases he

/-- A message built by `new_membership_msg` names the group it was given and
carries the service type masked with `CAUSED_BY_MASK` as its reason. -/
theorem new_membership_msg_ok_fields (h : SpH) (host : Host) (type : Int)
    (group : List Nat) (num_members : Int) (members buffer : List Nat) (size : Int)
    (m : MembershipMsg)
    (hok : (new_membership_msg h host type group num_members members buffer size).1 = .ok m) :
    m.group = group ∧ m.reason = c_and type (CAUSED_BY_MASK h) := by
  unfold new_membership_msg name_tuple at hok
  by_cases hm : num_members < 0
  · simp only [hm, if_true] at hok
    cases hok
  · simp only [hm, if_false] at hok
    by_cases hvs : (h.SP_get_vs_set_offset_memb_mess : Int) ≤ size
    · simp only [hvs, if_true] at hok
      by_cases hchk : wrap32 (size - h.SP_get_vs_set_offset_memb_mess) <
          wrap32 (load_int32 host buffer h.SP_get_num_vs_offset_memb_mess * h.MAX_GROUP_NAME)
      · simp only [hchk, if_true] at hok
        cases hok
      · simp only [hchk, if_false] at hok
        by_cases hn : load_int32 host buffer h.SP_get_num_vs_offset_memb_mess < 0
        · simp only [hn, if_true] at hok
          cases hok
        · simp only [hn, if_false] at hok
          injection hok with hok
          subst hok
          exact ⟨rfl, rfl⟩
    · simp only [hvs, if_false] at hok
      injection hok with hok
      subst hok
      exact ⟨rfl, rfl⟩

/-- A message built by `new_membership_msg` lists as members the strings of the
first `num_members` slots of the group buffer. -/
theorem new_membership_msg_ok_members (h : SpH) (host : Host) (type : Int)
    (group : List Nat) (num_members : Int) (members buffer : List Nat) (size : Int)
    (m : MembershipMsg)
    (hok : (new_membership_msg h host type group num_members members buffer size).1 = .ok m) :
    m.members = (List.range num_members.toNat).map
      (fun i => PyString_FromString members (i * h.MAX_GROUP_NAME)) := by
  unfold new_membership_msg name_tuple at hok
  by_cases hm : num_members < 0
  · simp only [hm, if_true] at hok
    cases hok
  · simp only [hm, if_false] at hok
    by_cases hvs : (h.SP_get_vs_set_offset_memb_mess : Int) ≤ size
    · simp only [hvs, if_true] at hok
      by_cases hchk : wrap32 (size - h.SP_get_vs_set_offset_memb_mess) <
          wrap32 (load_int32 host buffer h.SP_get_num_vs_offset_memb_mess * h.MAX_GROUP_NAME)
      · simp only [hchk, if_true] at hok
        cases hok
      · simp only [hchk, if_false] at hok
        by_cases hn : load_int32 host buffer h.SP_get_num_vs_offset_memb_mess < 0
        · simp only [hn, if_true] at hok
          cases hok
        · simp only [hn, if_false] at hok
          injection hok with hok
          subst hok
          rfl
    · simp only [hvs, if_false] at hok
      injection hok with hok
      subst hok
      rfl

/-- The decode step on a regular service type. -/
theorem decode_received_regular (h : SpH) (host : Host) (out : RecvOut) (bufs : RecvBufs)
    (hn : 0 ≤ out.num_groups) (hreg : h.Is_regular_mess out.svc_type = true) :
    ∃ m, decode_received h host out bufs = .ok (.Regular m) := by
  have hneg : ¬ out.num_groups < 0 := not_lt.mpr hn
  simp only [decode_received, hreg, if_true, new_regular_msg, name_tuple, hneg, if_false]
  exact ⟨_, rfl⟩

/-- The data buffer after the delivering call. -/
theorem delivered_buffer (h : SpH) (host : Host) (p : Pending) (b : RecvBufs) :
    (delivered h host p b).buffer = fill host b.buffer_bytes p.payload :=
  rfl

/-- The group buffer after the delivering call. -/
theorem delivered_groups (h : SpH) (host : Host) (p : Pending) (b : RecvBufs) :
    (delivered h host p b).groups = fill host (b.groups_bytes h) (pad_names h p.groups) :=
  rfl

/-- The group tuple built by the decode step on a regular service type. -/
theorem decode_received_regular_groups (h : SpH) (host : Host) (out : RecvOut)
    (bufs : RecvBufs) (hn : 0 ≤ out.num_groups) (hreg : h.Is_regular_mess out.svc_type = true) :
    ∃ m, decode_received h host out bufs = .ok (.Regular m) ∧
      m.groups = (List.range out.num_groups.toNat).map
        (fun i => PyString_FromString out.groups (i * h.MAX_GROUP_NAME)) := by
  have hneg : ¬ out.num_groups < 0 := not_lt.mpr hn
  simp only [decode_received, hreg, if_true, new_regular_msg, name_tuple, hneg, if_false]
  exact ⟨_, rfl, rfl⟩

/-- Names read behind a block of 0 bytes, of which the model holds no byte, are
all empty. -/
theorem name_tuple_empty_block (h : SpH) (n : Nat) :
    ∀ g ∈ (List.range n).map (fun i => PyString_FromString [] (i * h.MAX_GROUP_NAME)),
      g = [] := by
  intro g hg
  obtain ⟨i, _, rfl⟩ := List.mem_map.mp hg
  simp [PyString_FromString]

/-- The decode step on a service type that is not regular but membership. -/
theorem decode_received_membership (h : SpH) (host : Host) (out : RecvOut) (bufs : RecvBufs)
    (hreg : h.Is_regular_mess out.svc_type = false)
    (hmem : h.Is_membership_mess out.svc_type = true) :
    decode_received h host out bufs =
      match (new_membership_msg h host out.svc_type (PyString_FromString out.sender 0)
        out.num_groups out.groups out.buffer out.size).1 with
      | .error e => .error e
      | .ok m => .ok (.Membership m) := by
  simp only [decode_received, hreg, hmem, if_true, if_false, Bool.false_eq_true]

/-- The decode step on a service type that is neither regular nor membership. -/
theorem decode_received_unexpected (h : SpH) (host : Host) (out : RecvOut) (bufs : RecvBufs)
    (hreg : h.Is_regular_mess out.svc_type = false)
    (hmem : h.Is_membership_mess out.svc_type = false) :
    decode_received h host out bufs = .error (.unexpected_service_type out.svc_type) := by
  simp only [decode_received, hreg, hmem, if_false, Bool.false_eq_true]

/-- On a disconnected mailbox every operation leaves mailbox, toolkit state and
call log as they were. -/
theorem run_op_disconnected {σ : Type} (h : SpH) (host : Host) (lib : SpLib σ) (op : Op)
    (st : MailboxObject × World σ) (hd : st.1.disconnected = true) :
    run_op h host lib op st = st := by
  obtain ⟨self, w⟩ := st
  simp only at hd
  cases op with
  | disconnect => simp [run_op, mailbox_disconnect, hd]
  | fileno => simp [run_op, mailbox_fileno, hd]
  | join group => simp [run_op, mailbox_join, hd]
  | leave group => simp [run_op, mailbox_leave, hd]
  | multicast svc_type group msg msg_type => simp [run_op, mailbox_multicast, hd]
  | multigroup_multicast svc_type group_tuple msg msg_type =>
    simp only [run_op, mailbox_multigroup_multicast, hd, if_true]
    split_ifs <;> rfl
  | poll => simp [run_op, mailbox_poll, hd]
  | receive fuel => simp [run_op, mailbox_receive, hd]
  | dealloc => simp [run_op, mailbox_dealloc, hd]

theorem run_ops_disconnected {σ : Type} (h : SpH) (host : Host) (lib : SpLib σ)
    (ops : List Op) (st : MailboxObject × World σ) (hd : st.1.disconnected = true) :
    run_ops h host lib ops st = st := by
  induction ops with
  | nil => rfl
  | cons op ops ih => rw [run_ops, run_op_disconnected h host lib op st hd, ih]

theorem run_ops_append {σ : Type} (h : SpH) (host : Host) (lib : SpLib σ)
    (ops1 ops2 : List Op) (st : MailboxObject × World σ) :
    run_ops h host lib (ops1 ++ ops2) st =
      run_ops h host lib ops2 (run_ops h host lib ops1 st) := by
  induction ops1 generalizing st with
  | nil => rfl
  | cons op ops ih =>
    rw [List.cons_append, run_ops, run_ops]
    exact ih _

/-! ## Membership decoding -/

/-- C2 (failing input): on the little-endian header of Spread 3.17 a 16-byte
membership body declaring `0x08000000` extra members has a count whose product
with the name width, 2^32, exceeds the 0 remaining bytes; the product wraps to 0
in `int`, the corruption check passes, `new_membership_msg` builds a message
with 134217728 extra names and reads the byte at index 16 = `size`. -/
theorem new_membership_msg_count_overflow :
    load_int32 host64 overflow_buffer sp_h.SP_get_num_vs_offset_memb_mess = 134217728 ∧
    (134217728 : Int) * sp_h.MAX_GROUP_NAME > 16 - sp_h.SP_get_vs_set_offset_memb_mess ∧
    (∃ m, (new_membership_msg sp_h host64 0x1100 [] 0 [] overflow_buffer 16).1 = .ok m ∧
      m.extra.length = 134217728) ∧
    16 ∈ (new_membership_msg sp_h host64 0x1100 [] 0 [] overflow_buffer 16).2 := by
  have hload : load_int32 host64 overflow_buffer sp_h.SP_get_num_vs_offset_memb_mess
      = 134217728 := by decide
  have hchk : ¬ wrap32 (16 - sp_h.SP_get_vs_set_offset_memb_mess) <
      wrap32 (load_int32 host64 overflow_buffer sp_h.SP_get_num_vs_offset_memb_mess
        * sp_h.MAX_GROUP_NAME) := by
    rw [hload]; decide
  have heq := new_membership_msg_extension_eq sp_h host64 0x1100 [] 0 [] overflow_buffer 16
    (le_refl _) (by decide) hchk (by rw [hload]; decide)
  have htn : (134217728 : Int).toNat = 134217727 + 1 := by decide
  refine ⟨hload, by decide, ?_, ?_⟩
  · rw [heq]
    refine ⟨_, rfl, ?_⟩
    simp only [extra_loop_names, List.length_map, List.length_range, hload]
    decide
  · rw [heq, hload, htn]
    exact List.mem_append_right _ (extra_loop_reads_head sp_h overflow_buffer 134217727 _)

/-- C4: with `size` below the extension-region offset `new_membership_msg`
succeeds with no extra members and no group id, and reads no byte of `buffer`:
the list of indices read is empty and the outcome is the same for every buffer
content. -/
theorem new_membership_msg_below_offset (h : SpH) (host : Host) (type : Int)
    (group : List Nat) (num_members : Int) (members buffer : List Nat) (size : Int)
    (hmem : 0 ≤ num_members) (hsize : size < h.SP_get_vs_set_offset_memb_mess) :
    (∃ m, (new_membership_msg h host type group num_members members buffer size).1 = .ok m ∧
      m.extra = [] ∧ m.group_id = none) ∧
    (new_membership_msg h host type group num_members members buffer size).2 = [] ∧
    ∀ other : List Nat,
      new_membership_msg h host type group num_members members other size =
        new_membership_msg h host type group num_members members buffer size := by
  refine ⟨?_, ?_, ?_⟩
  · rw [new_membership_msg_no_extension_eq h host type group num_members members buffer size
      hmem hsize]
    exact ⟨_, rfl, rfl, rfl⟩
  · rw [new_membership_msg_no_extension_eq h host type group num_members members buffer size
      hmem hsize]
  · intro other
    rw [new_membership_msg_no_extension_eq h host type group num_members members buffer size
      hmem hsize,
      new_membership_msg_no_extension_eq h host type group num_members members other size
      hmem hsize]

/-- Witness of C4: a 3-byte body on the Spread 3.17 layout. -/
theorem new_membership_msg_below_offset_witness :
    (∃ m, (new_membership_msg sp_h host64 0x1100 [97] 0 [] [1, 2, 3] 3).1 = .ok m ∧
      m.extra = [] ∧ m.group_id = none) ∧
    (new_membership_msg sp_h host64 0x1100 [97] 0 [] [1, 2, 3] 3).2 = [] :=
  ⟨(new_membership_msg_below_offset sp_h host64 0x1100 [97] 0 [] [1, 2, 3] 3
      (by decide) (by decide)).1,
   (new_membership_msg_below_offset sp_h host64 0x1100 [97] 0 [] [1, 2, 3] 3
      (by decide) (by decide)).2.1⟩

/-! ## Receiving under the contract of the primitive -/

/-- C1: with the receive primitive following its contract and a pending regular
message of any payload size `S` (as an `int`, larger than the 10000-byte stack
buffer or not), `mailbox_receive` returns, for every iteration budget of at
least three, a RegularMsg whose payload is the payload sent, byte for byte, and
so has length `S`, whichever of zero, one or two retries the sizes force.  The
data buffer holds the payload followed by the stale rest of its capacity; the
copy of exactly `size` bytes is what separates the two. -/
theorem receive_regular_roundtrip (h : SpH) (host : Host) (p : Pending) (fuel : Nat)
    (self : MailboxObject) (calls : List SpCall) (hp : Deliverable h host p)
    (hreg : h.Is_regular_mess p.svc_type = true) (hc : self.disconnected = false)
    (hf : 3 ≤ fuel) :
    ∃ m, (mailbox_receive h host (contract_lib h) fuel self ⟨p, calls⟩).1
        = some (.ok (.Regular m)) ∧
      m.message = p.payload ∧ m.message.length = p.payload.length := by
  obtain ⟨b1, _, heq⟩ := mailbox_receive_regular h host p fuel self calls hp hreg hc hf
  exact ⟨_, heq, rfl, rfl⟩

/-- Witness of C1: a 10001-byte payload sent to 11 groups, so that both stack
buffers are too small and two retries occur; and a 2-byte payload received
without a retry into the 10000-byte stack buffer, whose third byte is stale and
not part of the message returned. -/
theorem receive_regular_roundtrip_witness :
    shortages big_message RecvBufs.init = 2 ∧
    (∃ m, (mailbox_receive sp_h host64 (contract_lib sp_h) 3 open_mbox ⟨big_message, []⟩).1
        = some (.ok (.Regular m)) ∧
      m.message = List.replicate 10001 7 ∧ m.message.length = 10001) ∧
    shortages short_message RecvBufs.init = 0 ∧
    (delivered sp_h host64 short_message RecvBufs.init).buffer.length = 10000 ∧
    (delivered sp_h host64 short_message RecvBufs.init).buffer.take 3 = [104, 105, 3] ∧
    ∃ m, (mailbox_receive sp_h host64 (contract_lib sp_h) 3 open_mbox ⟨short_message, []⟩).1
        = some (.ok (.Regular m)) ∧
      m.message = [104, 105] ∧ m.message.length = 2 := by
  have hs : shortages big_message RecvBufs.init = 2 := by
    simp only [shortages, big_message_payload_length, big_message_groups_length]
    decide
  obtain ⟨m, h1, h2, h3⟩ := receive_regular_roundtrip sp_h host64 big_message 3 open_mbox []
    big_message_deliverable (by decide) rfl (le_refl 3)
  obtain ⟨m2, k1, k2, k3⟩ := receive_regular_roundtrip sp_h host64 short_message 3 open_mbox []
    short_message_deliverable (by decide) rfl (le_refl 3)
  have hlen : (delivered sp_h host64 short_message RecvBufs.init).buffer.length = 10000 := by
    rw [delivered_buffer]
    exact fill_length host64 10000 [104, 105] (by decide)
  have htake : (delivered sp_h host64 short_message RecvBufs.init).buffer.take 3 =
      [104, 105, 3] := by
    rw [delivered_buffer]
    rfl
  exact ⟨hs, ⟨m, h1, h2, by rw [h3]; exact big_message_payload_length⟩, by decide, hlen,
    htake, m2, k1, k2, by rw [k3]; rfl⟩

/-- The group sequence in the range without overflow: with the receive
primitive following its contract and a pending message with well-formed group
names whose group buffer size `MAX_GROUP_NAME * N` fits an `int` (part of
`Deliverable`), `mailbox_receive` returns for a regular message a RegularMsg
whose `groups` are the delivered names in order; for a membership message every
MembershipMsg it returns has the delivered names as `members`, and it returns
one whenever the body stops short of the extension region. -/
theorem receive_group_names (h : SpH) (host : Host) (p : Pending) (fuel : Nat)
    (self : MailboxObject) (calls : List SpCall) (hp : Deliverable h host p)
    (hwf : well_formed_names h p.groups) (hc : self.disconnected = false) (hf : 3 ≤ fuel) :
    (h.Is_regular_mess p.svc_type = true →
      ∃ m, (mailbox_receive h host (contract_lib h) fuel self ⟨p, calls⟩).1
          = some (.ok (.Regular m)) ∧
        m.groups = p.groups ∧ m.groups.length = p.groups.length) ∧
    (h.Is_regular_mess p.svc_type = false → h.Is_membership_mess p.svc_type = true →
      (∀ m, (mailbox_receive h host (contract_lib h) fuel self ⟨p, calls⟩).1
          = some (.ok (.Membership m)) →
        m.members = p.groups ∧ m.members.length = p.groups.length) ∧
      ((p.payload.length : Int) < h.SP_get_vs_set_offset_memb_mess →
        ∃ m, (mailbox_receive h host (contract_lib h) fuel self ⟨p, calls⟩).1
          = some (.ok (.Membership m)))) := by
  obtain ⟨b1, calls1, heq, hbuf, hgrp, _⟩ :=
    receive_loop_contract_init h host p hp self fuel calls hf
  have hnames := slots_of_delivered h host p.groups hwf (b1.groups_bytes h) hgrp
  constructor
  · intro hreg
    obtain ⟨b2, hgrp2, heq2⟩ := mailbox_receive_regular h host p fuel self calls hp hreg hc hf
    have hnames2 := slots_of_delivered h host p.groups hwf (b2.groups_bytes h) hgrp2
    exact ⟨_, heq2, hnames2, by rw [hnames2]⟩
  · intro hreg hmemb
    have hdec : (mailbox_receive h host (contract_lib h) fuel self ⟨p, calls⟩).1 =
        some (match (new_membership_msg h host p.svc_type
            (PyString_FromString (fill host h.MAX_GROUP_NAME (pad_name h p.sender)) 0)
            (p.groups.length : Int) (fill host (b1.groups_bytes h) (pad_names h p.groups))
            (fill host b1.buffer_bytes p.payload) (p.payload.length : Int)).1 with
          | .error e => .error e
          | .ok m => .ok (.Membership m)) := by
      simp only [mailbox_receive, hc, heq, decode_received, delivered, hreg, hmemb, if_true,
        if_false, Bool.false_eq_true]
    constructor
    · intro m hm
      rw [hdec] at hm
      cases hres : (new_membership_msg h host p.svc_type
          (PyString_FromString (fill host h.MAX_GROUP_NAME (pad_name h p.sender)) 0)
          (p.groups.length : Int) (fill host (b1.groups_bytes h) (pad_names h p.groups))
          (fill host b1.buffer_bytes p.payload) (p.payload.length : Int)).1 with
      | error e =>
        rw [hres] at hm
        injection hm with hm
        cases hm
      | ok m2 =>
        rw [hres] at hm
        injection hm with hm
        injection hm with hm
        injection hm with hm
        subst hm
        have hmem := new_membership_msg_ok_members h host _ _ _ _ _ _ _ hres
        rw [hnames] at hmem
        exact ⟨hmem, by rw [hmem]⟩
    · intro hshort
      rw [hdec, new_membership_msg_no_extension_eq h host _ _ _ _ _ _
        (Int.natCast_nonneg _) hshort]
      exact ⟨_, rfl⟩

/-- An instance of the group sequence in range: the join notification for 11
members, one more than the stack group buffer holds. -/
theorem receive_group_names_witness :
    ∃ m, (mailbox_receive sp_h host64 (contract_lib sp_h) 3 open_mbox ⟨join_message, []⟩).1
        = some (.ok (.Membership m)) ∧
      m.members = List.replicate 11 [35, 97] ∧ m.members.length = 11 := by
  have hwf : well_formed_names sp_h join_message.groups := by
    intro g hg
    have hg2 : g = [35, 97] := List.eq_of_mem_replicate hg
    subst hg2
    exact ⟨by decide, by decide⟩
  have hw := (receive_group_names sp_h host64 join_message 3 open_mbox []
    join_message_deliverable hwf rfl (le_refl 3)).2 (by decide) (by decide)
  obtain ⟨m, h1⟩ := hw.2 (by decide)
  obtain ⟨h2, h3⟩ := hw.1 m h1
  exact ⟨m, h1, h2, by rw [h3]; exact join_message_groups_length⟩

/-- C5 (failing input): on the 64-bit host with the Spread 3.17 header
(`MAX_GROUP_NAME = 32`) and the receive primitive following its contract, a
pending regular message addressed to 134217728 groups with the well-formed name
`g` makes the retry ask `malloc` for `32 * 134217728` bytes, which is 0 in
`int`: the delivering call is made with `max_groups = 134217728` and a block of
0 bytes behind `groups`, none of the names is inside the block, and
`mailbox_receive` returns a RegularMsg whose `groups` are not the delivered
names. -/
theorem receive_group_names_overflow :
    1 ≤ huge_message.groups.length ∧
    well_formed_names sp_h huge_message.groups ∧
    sp_h.Is_regular_mess huge_message.svc_type = true ∧
    (mailbox_receive sp_h host64 (contract_lib sp_h) 3 open_mbox ⟨huge_message, []⟩).2.2.calls =
      [.SP_receive 3 0 10 320 10000 10000, .SP_receive 3 0 134217728 0 10000 10000] ∧
    (134217728 : Int) * sp_h.MAX_GROUP_NAME = 4294967296 ∧
    ∃ m, (mailbox_receive sp_h host64 (contract_lib sp_h) 3 open_mbox ⟨huge_message, []⟩).1
        = some (.ok (.Regular m)) ∧
      m.groups ≠ huge_message.groups := by
  have hN := huge_message_groups_length
  have hwf : well_formed_names sp_h huge_message.groups := by
    intro g hg
    have hg2 : g = [103] := List.eq_of_mem_replicate hg
    subst hg2
    exact ⟨by decide, by decide⟩
  have hc : open_mbox.disconnected = false := rfl
  have hreg : sp_h.Is_regular_mess huge_message.svc_type = true := by decide
  have hmr : mailbox_receive sp_h host64 (contract_lib sp_h) 3 open_mbox ⟨huge_message, []⟩ =
      (some (decode_received sp_h host64 (delivered sp_h host64 huge_message huge_bufs)
        huge_bufs), open_mbox,
        ⟨huge_message, [.SP_receive 3 0 10 320 10000 10000,
          .SP_receive 3 0 134217728 0 10000 10000]⟩) := by
    simp only [mailbox_receive, hc, huge_message_loop, Bool.false_eq_true, if_false]
  have hn : 0 ≤ (delivered sp_h host64 huge_message huge_bufs).num_groups :=
    Int.natCast_nonneg huge_message.groups.length
  obtain ⟨m, hm, hg⟩ := decode_received_regular_groups sp_h host64
    (delivered sp_h host64 huge_message huge_bufs) huge_bufs hn hreg
  have hgb : huge_bufs.groups_bytes sp_h = 0 := rfl
  have hgroups : (delivered sp_h host64 huge_message huge_bufs).groups = [] := by
    rw [delivered_groups, hgb, fill_zero]
  rw [hgroups] at hg
  have hall : ∀ g ∈ m.groups, g = [] := by
    rw [hg]
    exact name_tuple_empty_block sp_h _
  have hmem : [103] ∈ huge_message.groups := List.mem_replicate.mpr ⟨by norm_num, rfl⟩
  refine ⟨by rw [hN]; norm_num, hwf, hreg, by rw [hmr], by decide, m, ?_, ?_⟩
  · rw [hmr, ← hm]
  · intro e
    have hnil := hall [103] (e ▸ hmem)
    exact absurd hnil (by decide)

/-! ## Session guards -/

/-- C6: on a mailbox whose disconnected flag is set, `receive`, `join` and
`leave` fail with the closed-mbox error, invoke no toolkit entry point and
leave mailbox and toolkit state as they were. -/
theorem closed_mbox_no_transport {σ : Type} (h : SpH) (host : Host) (lib : SpLib σ)
    (fuel : Nat) (self : MailboxObject) (group : List Nat) (w : World σ)
    (hd : self.disconnected = true) :
    mailbox_receive h host lib fuel self w
      = (some (.error (.closed_mbox "receive")), self, w) ∧
    mailbox_join h lib self group w = (.error (.closed_mbox "join"), self, w) ∧
    mailbox_leave h lib self group w = (.error (.closed_mbox "leave"), self, w) := by
  simp [mailbox_receive, mailbox_join, mailbox_leave, err_disconnected, hd]

/-- Witness of C6. -/
theorem closed_mbox_no_transport_witness :
    mailbox_receive sp_h host64 refusing_lib 5 shut_mbox (fresh ())
      = (some (.error (.closed_mbox "receive")), shut_mbox, fresh ()) ∧
    mailbox_join sp_h refusing_lib shut_mbox [103] (fresh ())
      = (.error (.closed_mbox "join"), shut_mbox, fresh ()) ∧
    mailbox_leave sp_h refusing_lib shut_mbox [103] (fresh ())
      = (.error (.closed_mbox "leave"), shut_mbox, fresh ()) :=
  closed_mbox_no_transport sp_h host64 refusing_lib 5 shut_mbox [103] (fresh ()) rfl

/-- C7 (counterexample): when the teardown primitive returns -8, the first
`disconnect()` on a connected mailbox raises the mapped Spread error instead of
reporting success. -/
theorem disconnect_first_call_fails :
    (mailbox_disconnect sp_h refusing_lib open_mbox (fresh ())).1
      = .error (.SpreadError (-8) "Connection closed by spread") ∧
    (mailbox_disconnect sp_h refusing_lib open_mbox (fresh ())).1 ≠ .ok .None := by
  have h1 : (mailbox_disconnect sp_h refusing_lib open_mbox (fresh ())).1
      = .error (.SpreadError (-8) "Connection closed by spread") := by
    simp [mailbox_disconnect, refusing_lib, open_mbox, spread_error_self, spread_error,
      spread_error_case, sp_h]
  refine ⟨h1, ?_⟩
  rw [h1]
  intro hh
  cases hh

/-- C7 (amended): two consecutive `disconnect()` calls on a connected mailbox
invoke the teardown primitive exactly once, in the first call; the second call
is a no-op returning `None`; the first returns `None` exactly when the teardown
primitive returned 0 and otherwise raises the error `spread_error` maps its
return value to; the mailbox is disconnected afterwards. -/
theorem disconnect_twice {σ : Type} (h : SpH) (lib : SpLib σ) (self : MailboxObject)
    (w : World σ) (hc : self.disconnected = false) :
    let r1 := mailbox_disconnect h lib self w
    let r2 := mailbox_disconnect h lib r1.2.1 r1.2.2
    r1.2.2.calls = w.calls ++ [.SP_disconnect self.mbox] ∧
    r2.2.2.calls = w.calls ++ [.SP_disconnect self.mbox] ∧
    r2 = (.ok .None, r1.2.1, r1.2.2) ∧
    r1.2.1.disconnected = true ∧
    (r1.1 = .ok .None ↔ (lib.SP_disconnect w.state self.mbox).1 = 0) ∧
    ((lib.SP_disconnect w.state self.mbox).1 ≠ 0 →
      r1.1 = .error (spread_error h (lib.SP_disconnect w.state self.mbox).1 (some self)).1) := by
  intro r1 r2
  have hflag : r1.2.1.disconnected = true := by
    simp only [r1, mailbox_disconnect, hc, spread_error_self, spread_error]
    by_cases he : (lib.SP_disconnect w.state self.mbox).1 = 0
    · simp [he]
    · simp only [Bool.not_false, if_true, ne_eq, he, not_false_eq_true]
      split_ifs <;> rfl
  have hcalls : r1.2.2.calls = w.calls ++ [.SP_disconnect self.mbox] := by
    simp only [r1, mailbox_disconnect, hc, World.step]
    by_cases he : (lib.SP_disconnect w.state self.mbox).1 = 0 <;> simp [he]
  have hr2 : r2 = (.ok .None, r1.2.1, r1.2.2) := by
    simp only [r2, mailbox_disconnect, hflag]
    rfl
  refine ⟨hcalls, by rw [hr2]; exact hcalls, hr2, hflag, ?_, ?_⟩
  · simp only [r1, mailbox_disconnect, hc]
    by_cases he : (lib.SP_disconnect w.state self.mbox).1 = 0 <;> simp [he]
  · intro he
    simp [r1, mailbox_disconnect, hc, he, spread_error_self, spread_error]

/-- Witness of C7 (amended). -/
theorem disconnect_twice_witness :
    (mailbox_disconnect sp_h refusing_lib
      (mailbox_disconnect sp_h refusing_lib open_mbox (fresh ())).2.1
      (mailbox_disconnect sp_h refusing_lib open_mbox (fresh ())).2.2).2.2.calls
      = [.SP_disconnect 3] :=
  (disconnect_twice sp_h refusing_lib open_mbox (fresh ()) rfl).2.1

/-- On a mailbox that is already disconnected `disconnect()` does nothing and
returns `None`. -/
theorem disconnect_closed_noop {σ : Type} (h : SpH) (lib : SpLib σ) (self : MailboxObject)
    (w : World σ) (hd : self.disconnected = true) :
    mailbox_disconnect h lib self w = (.ok .None, self, w) := by
  simp [mailbox_disconnect, hd]

/-! ## Service-type validation in `multicast` -/

/-- C8 (counterexample): on a disconnected mailbox a service type with bit 7,
which is outside `valid_svc_type`, makes `multicast()` fail with the closed-mbox
error, not with ValueError. -/
theorem multicast_closed_mbox_error :
    (toU32 0x80).testBit 7 = true ∧ (toU32 (valid_svc_type sp_h)).testBit 7 = false ∧
    (mailbox_multicast sp_h refusing_lib shut_mbox 0x80 [103] [104, 105] 0 (fresh ())).1
      = .error (.closed_mbox "multicast") ∧
    (mailbox_multicast sp_h refusing_lib shut_mbox 0x80 [103] [104, 105] 0 (fresh ())).1
      ≠ .error (.ValueError "invalid service type") := by
  have h1 : (mailbox_multicast sp_h refusing_lib shut_mbox 0x80 [103] [104, 105] 0
      (fresh ())).1 = .error (.closed_mbox "multicast") := by
    simp [mailbox_multicast, shut_mbox, err_disconnected]
  refine ⟨by decide, by decide, h1, ?_⟩
  rw [h1]
  intro hh
  cases hh

/-- C8 (amended): for every mailbox state and every service type with a bit set
that `valid_svc_type` lacks (negative values included, through their 32-bit
pattern), `multicast()` invokes no toolkit entry point and changes nothing; it
fails with ValueError "invalid service type" on a connected mailbox and with
the closed-mbox error on a disconnected one. -/
theorem multicast_invalid_service_type {σ : Type} (h : SpH) (lib : SpLib σ)
    (self : MailboxObject) (svc_type : Int) (group msg : List Nat) (msg_type : Int)
    (w : World σ)
    (hbit : ∃ i, (toU32 svc_type).testBit i = true ∧
      (toU32 (valid_svc_type h)).testBit i = false) :
    mailbox_multicast h lib self svc_type group msg msg_type w =
      (.error (if self.disconnected then .closed_mbox "multicast"
               else .ValueError "invalid service type"), self, w) := by
  obtain ⟨i, hs, hv⟩ := hbit
  have hne := c_and_ne_of_bit_outside svc_type (valid_svc_type h) i hs hv
  unfold mailbox_multicast
  by_cases hd : self.disconnected = true
  · simp [hd, err_disconnected]
  · simp [hd, hne]

/-- Witness of C8 (amended): service type -1 on a connected mailbox. -/
theorem multicast_invalid_service_type_witness :
    mailbox_multicast sp_h refusing_lib open_mbox (-1) [103] [104, 105] 0 (fresh ()) =
      (.error (if open_mbox.disconnected then .closed_mbox "multicast"
               else .ValueError "invalid service type"), open_mbox, fresh ()) :=
  multicast_invalid_service_type sp_h refusing_lib open_mbox (-1) [103] [104, 105] 0 (fresh ())
    ⟨7, by decide, by decide⟩

/-- C9 (failing input): on a connected mailbox `multicast()` with the empty
service type 0 passes the validation and invokes `SP_multicast` with
`svc_type = 0`. -/
theorem multicast_empty_service_type_sent {σ : Type} (h : SpH) (lib : SpLib σ)
    (self : MailboxObject) (group msg : List Nat) (msg_type : Int) (w : World σ)
    (hc : self.disconnected = false) :
    (mailbox_multicast h lib self 0 group msg msg_type w).2.2.calls =
      w.calls ++ [.SP_multicast self.mbox 0 group (to_int16 msg_type) msg] ∧
    ∀ e, (mailbox_multicast h lib self 0 group msg msg_type w).1 ≠ .error (.ValueError e) := by
  unfold mailbox_multicast
  simp only [hc, c_and_zero_left, ne_eq, not_true_eq_false, if_false, Bool.false_eq_true]
  by_cases hr : (lib.SP_multicast w.state self.mbox 0 group (to_int16 msg_type) msg).1 < 0
  · simp [hr, World.step, spread_error_self, spread_error]
  · simp [hr, World.step]

/-- Witness of C9 (failing input). -/
theorem multicast_empty_service_type_sent_witness :
    (mailbox_multicast sp_h refusing_lib open_mbox 0 [103] [104, 105] 0 (fresh ())).2.2.calls =
      [.SP_multicast 3 0 [103] 0 [104, 105]] :=
  (multicast_empty_service_type_sent sp_h refusing_lib open_mbox [103] [104, 105] 0
    (fresh ()) rfl).1

/-! ## The error mapper -/

/-- C10: `spread_error(c, s)` leaves every field of a supplied mailbox as it
was except `disconnected`, which becomes the old flag or-ed with
"`c` is `CONNECTION_CLOSED` or `ILLEGAL_SESSION`"; with no mailbox supplied
there is no mailbox afterwards either.  The sixteen case labels are distinct,
as a C `switch` requires. -/
theorem spread_error_disconnected_flag (h : SpH) (c : Int) (s : MailboxObject)
    (hd : h.codes.Nodup) :
    (spread_error h c (some s)).2 =
      some { s with disconnected :=
        s.disconnected || decide (c = h.CONNECTION_CLOSED ∨ c = h.ILLEGAL_SESSION) } ∧
    (spread_error h c none).2 = none := by
  refine ⟨?_, rfl⟩
  obtain ⟨s_mbox, s_pg, s_d⟩ := s
  simp only [spread_error]
  by_cases h8 : c = h.CONNECTION_CLOSED
  · subst h8
    rw [spread_error_case_connection_closed h hd]
    simp
  · by_cases h10 : c = h.ILLEGAL_SESSION
    · subst h10
      rw [spread_error_case_illegal_session h hd]
      simp
    · rw [spread_error_case_flag_false h c h8 h10]
      simp [h8, h10]

/-- Witness of C10 on the Spread 3.17 codes. -/
theorem spread_error_disconnected_flag_witness :
    (spread_error sp_h (-8) (some open_mbox)).2 = some shut_mbox ∧
    (spread_error sp_h (-8) none).2 = none := by
  have hw := spread_error_disconnected_flag sp_h (-8) open_mbox (by decide)
  refine ⟨?_, hw.2⟩
  rw [hw.1]
  rfl

/-- C11: the error `spread_error` sets carries the raw code `c` and a message;
the message is "unrecognized error" exactly when `c` is none of the sixteen
case labels, and two different known codes never get the same message. -/
theorem spread_error_code_and_message (h : SpH) (c : Int) (s : Option MailboxObject) :
    (∃ msg, (spread_error h c s).1 = .SpreadError c msg ∧
      (msg = "unrecognized error" ↔ c ∉ h.codes)) ∧
    (∀ (c2 : Int) (s2 : Option MailboxObject) (m1 m2 : String),
      c ∈ h.codes → c2 ∈ h.codes → c ≠ c2 →
      (spread_error h c s).1 = .SpreadError c m1 →
      (spread_error h c2 s2).1 = .SpreadError c2 m2 → m1 ≠ m2) := by
  have hdef : spread_error_messages.getD 16 "" = "unrecognized error" := rfl
  constructor
  · refine ⟨(spread_error_case h c).1, rfl, ?_⟩
    rw [spread_error_case_message, ← List.indexOf_eq_length]
    have hlen : h.codes.length = 16 := rfl
    rw [hlen]
    constructor
    · intro he
      exact spread_error_messages_inj _ _ (codes_indexOf_le h c) (le_refl _) (he.trans hdef.symm)
    · intro he
      rw [he]
      rfl
  · intro c2 s2 m1 m2 hc hc2 hne h1 h2 hm
    have e1 : m1 = (spread_error_case h c).1 := by
      simp only [spread_error, PyErr.SpreadError.injEq, true_and] at h1
      exact h1.symm
    have e2 : m2 = (spread_error_case h c2).1 := by
      simp only [spread_error, PyErr.SpreadError.injEq, true_and] at h2
      exact h2.symm
    rw [e1, e2, spread_error_case_message, spread_error_case_message] at hm
    have hidx := spread_error_messages_inj _ _ (codes_indexOf_le h c) (codes_indexOf_le h c2) hm
    have l1 : h.codes.indexOf c < h.codes.length := List.indexOf_lt_length.mpr hc
    have l2 : h.codes.indexOf c2 < h.codes.length := List.indexOf_lt_length.mpr hc2
    have g1 : h.codes.get ⟨h.codes.indexOf c, l1⟩ = c := List.indexOf_get l1
    have g2 : h.codes.get ⟨h.codes.indexOf c2, l2⟩ = c2 := List.indexOf_get l2
    apply hne
    rw [← g1, ← g2]
    congr 1
    exact Fin.ext hidx

/-- Witness of C11 on the Spread 3.17 codes: `CONNECTION_CLOSED` is a known
code and its message is not the generic one. -/
theorem spread_error_code_and_message_witness :
    ∃ msg, (spread_error sp_h (-8) none).1 = .SpreadError (-8) msg ∧
      (msg = "unrecognized error" ↔ (-8 : Int) ∉ sp_h.codes) :=
  (spread_error_code_and_message sp_h (-8) none).1

/-! ## Classification of the received message -/

/-- C12 (counterexample): a successful receive delivers service type `0x1100`,
which is a membership and not a regular type, with a 16-byte body that declares
one extra member; the decode step fails with the corruption error and builds no
MembershipMsg. -/
theorem decode_membership_corrupt_body :
    receive_iteration sp_h host64 corrupt_join_out RecvBufs.init open_mbox
      = .error (.done corrupt_join_out RecvBufs.init, open_mbox) ∧
    sp_h.Is_regular_mess corrupt_join_out.svc_type = false ∧
    sp_h.Is_membership_mess corrupt_join_out.svc_type = true ∧
    decode_received sp_h host64 corrupt_join_out RecvBufs.init = .error (.corrupted 1 0) ∧
    ∀ m, decode_received sp_h host64 corrupt_join_out RecvBufs.init ≠ .ok (.Membership m) := by
  have hdec : decode_received sp_h host64 corrupt_join_out RecvBufs.init
      = .error (.corrupted 1 0) := by
    rw [decode_received_membership sp_h host64 corrupt_join_out RecvBufs.init
      (by decide) (by decide)]
    rfl
  refine ⟨rfl, by decide, by decide, hdec, ?_⟩
  intro m hm
  rw [hdec] at hm
  cases hm

/-- C12 (amended): for an outcome of a successful receive (non-negative group
count) the decode step returns a RegularMsg when the service type is regular;
when it is not regular but membership it returns what `new_membership_msg`
makes of the body, a MembershipMsg or else the corruption error or SystemError,
never another error; and it fails with the unexpected-service-type error, which
carries the raw service type, exactly when the type is neither. -/
theorem decode_received_dispatch (h : SpH) (host : Host) (out : RecvOut) (bufs : RecvBufs)
    (hn : 0 ≤ out.num_groups) :
    (h.Is_regular_mess out.svc_type = true →
      ∃ m, decode_received h host out bufs = .ok (.Regular m)) ∧
    (h.Is_regular_mess out.svc_type = false → h.Is_membership_mess out.svc_type = true →
      decode_received h host out bufs =
        (match (new_membership_msg h host out.svc_type (PyString_FromString out.sender 0)
          out.num_groups out.groups out.buffer out.size).1 with
        | .error e => .error e
        | .ok m => .ok (.Membership m)) ∧
      ∀ e, decode_received h host out bufs = .error e →
        e = .SystemError ∨ ∃ n r, e = .corrupted n r) ∧
    ((∃ v, decode_received h host out bufs = .error (.unexpected_service_type v)) ↔
      h.Is_regular_mess out.svc_type = false ∧ h.Is_membership_mess out.svc_type = false) ∧
    (h.Is_regular_mess out.svc_type = false → h.Is_membership_mess out.svc_type = false →
      decode_received h host out bufs = .error (.unexpected_service_type out.svc_type)) := by
  have hmemb_err : h.Is_regular_mess out.svc_type = false →
      h.Is_membership_mess out.svc_type = true →
      ∀ e, decode_received h host out bufs = .error e →
        e = .SystemError ∨ ∃ n r, e = .corrupted n r := by
    intro hreg hmem e he
    rw [decode_received_membership h host out bufs hreg hmem] at he
    cases hres : (new_membership_msg h host out.svc_type (PyString_FromString out.sender 0)
        out.num_groups out.groups out.buffer out.size).1 with
    | error e2 =>
      rw [hres] at he
      injection he with he
      subst he
      exact new_membership_msg_error_kind h host _ _ _ _ _ _ _ hres
    | ok m =>
      rw [hres] at he
      cases he
  refine ⟨decode_received_regular h host out bufs hn, ?_, ?_,
    decode_received_unexpected h host out bufs⟩
  · intro hreg hmem
    exact ⟨decode_received_membership h host out bufs hreg hmem, hmemb_err hreg hmem⟩
  · constructor
    · rintro ⟨v, hv⟩
      cases hreg : h.Is_regular_mess out.svc_type with
      | true =>
        obtain ⟨m, hm⟩ := decode_received_regular h host out bufs hn hreg
        rw [hm] at hv
        cases hv
      | false =>
        cases hmem : h.Is_membership_mess out.svc_type with
        | true =>
          rcases hmemb_err hreg hmem _ hv with h1 | ⟨n, r, h1⟩ <;> cases h1
        | false => exact ⟨rfl, rfl⟩
    · rintro ⟨hreg, hmem⟩
      exact ⟨_, decode_received_unexpected h host out bufs hreg hmem⟩

/-- Witness of C12 (amended): the corrupted join notification is dispatched to
`new_membership_msg`. -/
theorem decode_received_dispatch_witness :
    (∃ v, decode_received sp_h host64 corrupt_join_out RecvBufs.init
        = .error (.unexpected_service_type v)) ↔
      sp_h.Is_regular_mess corrupt_join_out.svc_type = false ∧
      sp_h.Is_membership_mess corrupt_join_out.svc_type = false :=
  (decode_received_dispatch sp_h host64 corrupt_join_out RecvBufs.init (by decide)).2.2.1

/-- C14 (counterexample): on the Spread 3.17 header the transitional service
type `0x2000` is classified as a membership message and decodes to a
MembershipMsg whose reason is 0, none of the four causes; the type `0x1300`
decodes to a MembershipMsg whose reason `0x300` combines two cause bits. -/
theorem membership_cause_not_single :
    sp_h.Is_membership_mess transition_out.svc_type = true ∧
    (∃ m, decode_received sp_h host64 transition_out RecvBufs.init = .ok (.Membership m) ∧
      m.reason = 0 ∧
      m.reason ∉ [sp_h.CAUSED_BY_JOIN, sp_h.CAUSED_BY_LEAVE, sp_h.CAUSED_BY_DISCONNECT,
        sp_h.CAUSED_BY_NETWORK]) ∧
    sp_h.Is_membership_mess join_leave_out.svc_type = true ∧
    (∃ m, decode_received sp_h host64 join_leave_out RecvBufs.init = .ok (.Membership m) ∧
      m.reason = 0x300 ∧
      m.reason ∉ [sp_h.CAUSED_BY_JOIN, sp_h.CAUSED_BY_LEAVE, sp_h.CAUSED_BY_DISCONNECT,
        sp_h.CAUSED_BY_NETWORK]) := by
  refine ⟨by decide, ?_, by decide, ?_⟩
  · rw [decode_received_membership sp_h host64 transition_out RecvBufs.init
      (by decide) (by decide)]
    exact ⟨_, rfl, by decide, by decide⟩
  · rw [decode_received_membership sp_h host64 join_leave_out RecvBufs.init
      (by decide) (by decide)]
    exact ⟨_, rfl, by decide, by decide⟩

/-- C14 (amended): for a service type that is not regular but membership, every
MembershipMsg the decode step returns has the sender name as its group and the
service type masked with `CAUSED_BY_MASK` as its reason, so the reason has no
bit outside the four cause bits; such a message is returned whenever the body
stops short of the extension region or declares extra members that fit. -/
theorem membership_event_cause (h : SpH) (host : Host) (out : RecvOut) (bufs : RecvBufs)
    (hreg : h.Is_regular_mess out.svc_type = false)
    (hmem : h.Is_membership_mess out.svc_type = true) :
    (∀ m, decode_received h host out bufs = .ok (.Membership m) →
      m.group = PyString_FromString out.sender 0 ∧
      m.reason = c_and out.svc_type (CAUSED_BY_MASK h) ∧
      toU32 m.reason &&& toU32 (CAUSED_BY_MASK h) = toU32 m.reason) ∧
    (0 ≤ out.num_groups →
      (out.size < h.SP_get_vs_set_offset_memb_mess ∨
        ((h.SP_get_vs_set_offset_memb_mess : Int) ≤ out.size ∧ out.size < 2 ^ 31 ∧
          0 ≤ load_int32 host out.buffer h.SP_get_num_vs_offset_memb_mess ∧
          load_int32 host out.buffer h.SP_get_num_vs_offset_memb_mess * h.MAX_GROUP_NAME
            ≤ out.size - h.SP_get_vs_set_offset_memb_mess)) →
      ∃ m, decode_received h host out bufs = .ok (.Membership m)) := by
  have hdec := decode_received_membership h host out bufs hreg hmem
  constructor
  · intro m hm
    rw [hdec] at hm
    cases hres : (new_membership_msg h host out.svc_type (PyString_FromString out.sender 0)
        out.num_groups out.groups out.buffer out.size).1 with
    | error e =>
      rw [hres] at hm
      cases hm
    | ok m2 =>
      rw [hres] at hm
      injection hm with hm
      injection hm with hm
      subst hm
      obtain ⟨hg, hr⟩ := new_membership_msg_ok_fields h host _ _ _ _ _ _ _ hres
      exact ⟨hg, hr, by rw [hr]; exact c_and_subset_mask _ _⟩
  · intro hn hbody
    rw [hdec]
    rcases hbody with hshort | ⟨hvs, hsz, hn0, hfit⟩
    · rw [new_membership_msg_no_extension_eq h host _ _ _ _ _ _ hn hshort]
      exact ⟨_, rfl⟩
    · have hvs0 : (0 : Int) ≤ h.SP_get_vs_set_offset_memb_mess := Int.natCast_nonneg _
      have hprod : 0 ≤ load_int32 host out.buffer h.SP_get_num_vs_offset_memb_mess
          * h.MAX_GROUP_NAME := mul_nonneg hn0 (Int.natCast_nonneg _)
      have hw1 : wrap32 (out.size - h.SP_get_vs_set_offset_memb_mess)
          = out.size - h.SP_get_vs_set_offset_memb_mess :=
        wrap32_of_isInt32 ⟨by norm_num; omega, by omega⟩
      have hw2 : wrap32 (load_int32 host out.buffer h.SP_get_num_vs_offset_memb_mess
          * h.MAX_GROUP_NAME)
          = load_int32 host out.buffer h.SP_get_num_vs_offset_memb_mess * h.MAX_GROUP_NAME :=
        wrap32_of_isInt32 ⟨by norm_num; omega, by omega⟩
      have hchk : ¬ wrap32 (out.size - h.SP_get_vs_set_offset_memb_mess) <
          wrap32 (load_int32 host out.buffer h.SP_get_num_vs_offset_memb_mess
            * h.MAX_GROUP_NAME) := by
        rw [hw1, hw2]; exact not_lt.mpr hfit
      rw [new_membership_msg_extension_eq h host _ _ _ _ _ _ hn hvs hchk hn0]
      exact ⟨_, rfl⟩

/-- Witness of C14 (amended): the transitional message decodes to a
MembershipMsg for the sender `g`. -/
theorem membership_event_cause_witness :
    ∃ m, decode_received sp_h host64 transition_out RecvBufs.init = .ok (.Membership m) ∧
      m.group = [103] := by
  have hw := membership_event_cause sp_h host64 transition_out RecvBufs.init
    (by decide) (by decide)
  obtain ⟨m, hm⟩ := hw.2 (by decide) (Or.inl (by decide))
  exact ⟨m, hm, (hw.1 m hm).1⟩

/-! ## The disconnected flag as a state-machine invariant -/

/-- C13: for every toolkit behaviour and every sequence of mailbox operations,
once the disconnected flag is set after a prefix of the sequence, every longer
prefix ends in the same mailbox, toolkit state and call log: the flag stays set
and no toolkit entry point is invoked any more.  The teardown of the object
invokes `SP_disconnect` exactly when the flag is still clear. -/
theorem disconnected_is_final {σ : Type} (h : SpH) (host : Host) (lib : SpLib σ)
    (ops1 ops2 : List Op) (self : MailboxObject) (w : World σ)
    (hd : (run_ops h host lib ops1 (self, w)).1.disconnected = true) :
    run_ops h host lib (ops1 ++ ops2) (self, w) = run_ops h host lib ops1 (self, w) ∧
    (run_ops h host lib (ops1 ++ ops2) (self, w)).1.disconnected = true ∧
    (run_ops h host lib (ops1 ++ ops2) (self, w)).2.calls
      = (run_ops h host lib ops1 (self, w)).2.calls ∧
    ∀ (s : MailboxObject) (v : World σ), (mailbox_dealloc lib s v).calls =
      if s.disconnected then v.calls else v.calls ++ [.SP_disconnect s.mbox] := by
  have heq : run_ops h host lib (ops1 ++ ops2) (self, w) = run_ops h host lib ops1 (self, w) := by
    rw [run_ops_append, run_ops_disconnected h host lib ops2 _ hd]
  refine ⟨heq, by rw [heq]; exact hd, by rw [heq], ?_⟩
  intro s v
  cases hs : s.disconnected <;> simp [mailbox_dealloc, hs, World.step]

/-- Witness of C13: after `disconnect()` a join, a receive and the teardown
leave the call log at the single `SP_disconnect`. -/
theorem disconnected_is_final_witness :
    (run_ops sp_h host64 refusing_lib ([.disconnect] ++ [.join [103], .receive 5, .dealloc])
      (open_mbox, fresh ())).2.calls = [.SP_disconnect 3] := by
  have hw := disconnected_is_final sp_h host64 refusing_lib [.disconnect]
    [.join [103], .receive 5, .dealloc] open_mbox (fresh ()) (by
      simp [run_ops, run_op, mailbox_disconnect, open_mbox, refusing_lib, spread_error_self,
        spread_error, spread_error_case, sp_h])
  rw [hw.2.2.1]
  simp [run_ops, run_op, mailbox_disconnect, open_mbox, refusing_lib, spread_error_self,
    spread_error, spread_error_case, sp_h, World.step, fresh]

/-! ## Termination of the receive loop -/

/-- C15: with the receive primitive following its contract, a pending message
of any payload size and group count (as `int`s) and any host, `mailbox_receive`
returns for every iteration budget of at least three, having invoked nothing
but `SP_receive`, at least once and at most once per undersized buffer plus
once, hence at most three times; when the host grants the retry buffers the
number of invocations is exactly one plus the number of undersized buffers. -/
theorem receive_terminates_in_three (h : SpH) (host : Host) (p : Pending) (fuel : Nat)
    (self : MailboxObject) (calls : List SpCall) (hr : Receivable h p)
    (hc : self.disconnected = false) (hf : 3 ≤ fuel) :
    ∃ r added, mailbox_receive h host (contract_lib h) fuel self ⟨p, calls⟩ =
        (some r, self, ⟨p, calls ++ added⟩) ∧
      (∀ c ∈ added, c.is_receive = true) ∧
      1 ≤ added.length ∧ added.length ≤ shortages p RecvBufs.init + 1 ∧
      added.length ≤ 3 ∧
      (Deliverable h host p → added.length = shortages p RecvBufs.init + 1) := by
  have hsh := shortages_le_two p RecvBufs.init
  obtain ⟨exit, added, heq, hex, hl1, hl2, hall⟩ :=
    receive_loop_terminates h host p hr self fuel RecvBufs.init calls
      (by simp [RecvBufs.init, DEFAULT_BUFFER_SIZE]) (by simp [RecvBufs.init, DEFAULT_GROUPS_SIZE])
      (by omega)
  have hexact : Deliverable h host p → added.length = shortages p RecvBufs.init + 1 := by
    intro hp
    obtain ⟨b1, calls1, heq1, _, _, hlen⟩ :=
      receive_loop_contract_init h host p hp self fuel calls hf
    rw [heq] at heq1
    have hw : calls ++ added = calls1 := by
      injection heq1 with _ h2
      injection h2 with _ h3
      injection h3
    rw [← hw, List.length_append] at hlen
    omega
  cases exit with
  | running => exact absurd rfl hex
  | failed e =>
    refine ⟨.error e, added, ?_, hall, hl1, hl2, by omega, hexact⟩
    simp only [mailbox_receive, hc, heq, Bool.false_eq_true, if_false]
  | done out bufs =>
    refine ⟨decode_received h host out bufs, added, ?_, hall, hl1, hl2, by omega, hexact⟩
    simp only [mailbox_receive, hc, heq, Bool.false_eq_true, if_false]

/-- Witness of C15: the 10001-byte message to 11 groups is received with exactly
three invocations of the primitive. -/
theorem receive_terminates_in_three_witness :
    ∃ r added, mailbox_receive sp_h host64 (contract_lib sp_h) 3 open_mbox ⟨big_message, []⟩ =
        (some r, open_mbox, ⟨big_message, [] ++ added⟩) ∧ added.length = 3 := by
  obtain ⟨r, added, heq, _, _, _, _, hex⟩ := receive_terminates_in_three sp_h host64
    big_message 3 open_mbox [] big_message_deliverable.receivable rfl (le_refl 3)
  refine ⟨r, added, heq, ?_⟩
  rw [hex big_message_deliverable, big_message_shortages]

/-! ## One iteration of the receive loop -/

/-- C16 (failing input): on the 64-bit host with the Spread 3.17 header
(`MAX_GROUP_NAME = 32`), when `SP_receive` returns `GROUPS_TOO_SHORT` with
`num_groups = -134217728`, the iteration sets `max_groups = 134217728` and asks
`malloc` for `32 * 134217728`, which wraps to 0 in `int`: the next call is made
with a group buffer of 0 bytes instead of 4294967296; the data capacity and
`svc_type = 0` are unaffected. -/
theorem groups_retry_size_overflow :
    huge_groups_out.size = sp_h.GROUPS_TOO_SHORT ∧
    receive_iteration sp_h host64 huge_groups_out RecvBufs.init open_mbox =
      .ok { max_groups := 134217728, groups_heap := some 0, bufsize := 10000, data := none } ∧
    (receive_loop sp_h host64 huge_groups_lib 2 RecvBufs.init open_mbox (fresh ())).2.2.calls =
      [.SP_receive 3 0 10 320 10000 10000, .SP_receive 3 0 134217728 0 10000 10000] ∧
    (134217728 : Int) * sp_h.MAX_GROUP_NAME = 4294967296 := by
  refine ⟨by decide, ?_, ?_, by decide⟩
  · rfl
  · decide

/-! ## Internal-consistency faults of the receive loop -/

/-- C17: with distinct negative too-short codes, one iteration of the receive
loop raises its AssertionError, carrying size, svc_type, num_groups, msg_type
and endian of the outcome, exactly on the outcomes of `consistency_fault`; the
loop then stops with the call just made as the last entry of the log and the
mailbox untouched, so `mailbox_receive` returns the error and no message.  A
negative size that is neither too-short code is mapped through `spread_error`
and stops the loop as well. -/
theorem receive_loop_consistency_fault {σ : Type} (h : SpH) (host : Host) (lib : SpLib σ)
    (fuel : Nat) (bufs : RecvBufs) (self : MailboxObject) (w : World σ)
    (hB : h.BUFFER_TOO_SHORT < 0) (hG : h.GROUPS_TOO_SHORT < 0)
    (hne : h.BUFFER_TOO_SHORT ≠ h.GROUPS_TOO_SHORT) :
    let r := lib.SP_receive w.state self.mbox 0 bufs.max_groups bufs.bufsize
    let out := received h host bufs r.1
    let w1 := w.step (.SP_receive self.mbox 0 bufs.max_groups (bufs.groups_bytes h)
      bufs.bufsize bufs.buffer_bytes) r.2
    (consistency_fault h out →
      ∃ msg, receive_iteration h host out bufs self =
          .error (.failed (.assert_error msg out.size out.svc_type out.num_groups out.msg_type
            out.endian), self) ∧
        receive_loop h host lib (fuel + 1) bufs self w =
          (.failed (.assert_error msg out.size out.svc_type out.num_groups out.msg_type
            out.endian), self, w1) ∧
        (self.disconnected = false → bufs = RecvBufs.init →
          mailbox_receive h host lib (fuel + 1) self w =
            (some (.error (.assert_error msg out.size out.svc_type out.num_groups out.msg_type
              out.endian)), self, w1))) ∧
    (¬ consistency_fault h out →
      ∀ e s, receive_iteration h host out bufs self = .error (.failed e, s) →
        e.is_assert_error = false) ∧
    (out.size < 0 → out.size ≠ h.BUFFER_TOO_SHORT → out.size ≠ h.GROUPS_TOO_SHORT →
      receive_loop h host lib (fuel + 1) bufs self w =
        (.failed (spread_error h out.size (some self)).1,
          (spread_error_self h out.size self).2, w1)) := by
  intro r out w1
  refine ⟨?_, ?_, ?_⟩
  · intro hf
    obtain ⟨msg, hmsg⟩ := receive_iteration_fault h host out bufs self hB hG hne hf
    have hloop := receive_loop_exit h host lib fuel bufs self w _ _ hmsg
    refine ⟨msg, hmsg, hloop, ?_⟩
    intro hc hb
    subst hb
    simp only [mailbox_receive, hc, hloop, Bool.false_eq_true, if_false]
  · intro hf e s he
    exact receive_iteration_no_fault h host out bufs self hf e s he
  · intro hs hb hg
    exact receive_loop_exit h host lib fuel bufs self w _ _
      (receive_iteration_spread_error h host out bufs self hs hb hg)

/-- Witness of C17: a success return with `num_groups = -1` on the first call
makes `receive()` fail with the AssertionError after that single call. -/
theorem receive_loop_consistency_fault_witness :
    ∃ msg, mailbox_receive sp_h host64 faulty_lib 5 open_mbox (fresh ()) =
      (some (.error (.assert_error msg 5 0x02 (-1) 0 0)), open_mbox,
        (fresh ()).step (.SP_receive 3 0 10 320 10000 10000) ()) := by
  obtain ⟨msg, _, _, hm⟩ := (receive_loop_consistency_fault sp_h host64 faulty_lib 4
    RecvBufs.init open_mbox (fresh ()) (by decide) (by decide) (by decide)).1
    (Or.inl ⟨by decide, Or.inl (by decide)⟩)
  exact ⟨msg, hm rfl rfl⟩

end Spread
